import Mathlib

/-
Verification development for the Inception SDN controller
(src/ryu/app/inception.py).  The controller logic is shallowly embedded:
every handler of the source file becomes a Lean function over an explicit
controller-state record; Python exceptions become an error-carrying result
type; the ZooKeeper durable store becomes an association list of znodes;
emitted OpenFlow rules, RPC calls and committed transactions are recorded
in ghost log fields of the state.

Modules of the repository that are referenced by inception.py but are not
part of the source tree here (inception_util.py, inception_conf.py,
inception_priority.py, inception_arp.py, inception_dhcp.py) are modelled
from the specification; each such definition carries a doc comment that
starts with "Modelled from the spec:".
-/

set_option linter.unusedVariables false

namespace Inception

/-- Kinds of Python exceptions (and kazoo/ZooKeeper errors) that the
embedded code paths can raise. -/
inductive PyErr where
  | typeError
  | keyError
  | valueError
  | nameError
  | attributeError
  | nodeExistsError
  | noNodeError
  | parseError
  deriving DecidableEq

/-- Decoded payload of a packet-in, as supplied by the parsing collaborator
(ryu.lib.packet).  The constructor plays the role of the ethertype dispatch
of `_process_packet_in` (lines 450 and 455 of the source): `arp` stands for
ETH_TYPE_ARP frames, `ipv4` for ETH_TYPE_IP frames, `plain` for any other
ethertype. -/
inductive PacketBody where
  | arp (src_ip : String)
  | ipv4 (proto : Nat) (udp_src : Nat)
  | plain
  deriving DecidableEq

/-- A decoded packet: Ethernet source address plus payload. -/
structure PacketIn where
  eth_src : String
  body : PacketBody
  deriving DecidableEq

/-- Data stored at a znode of the durable store: a string (serialized
tuples), a raw packet payload (failover log entries), or no data. -/
inductive ZVal where
  | str (v : String)
  | pkt (v : PacketIn)
  | nil
  deriving DecidableEq

/-- Lookup in the association-list model of a Python dict. -/
def dget {α β : Type} [DecidableEq α] : List (α × β) → α → Option β
  | [], _ => none
  | (k0, v0) :: t, k => if k0 = k then some v0 else dget t k

/-- Insert-or-update in the association-list model of a Python dict
(insertion order preserved, updates in place, new keys appended). -/
def dset {α β : Type} [DecidableEq α] : List (α × β) → α → β → List (α × β)
  | [], k, v => [(k, v)]
  | (k0, v0) :: t, k, v => if k0 = k then (k, v) :: t else (k0, v0) :: dset t k v

/-- Deletion in the association-list model of a Python dict. -/
def ddel {α β : Type} [DecidableEq α] : List (α × β) → α → List (α × β)
  | [], _ => []
  | (k0, v0) :: t, k => if k0 = k then ddel t k else (k0, v0) :: ddel t k

/-- Whether the first character list is an initial segment of the second
(Python str.startswith, written with structural recursion so that proofs
can evaluate it — several core String functions do not reduce). -/
def charsHaveHead : List Char → List Char → Bool
  | [], _ => true
  | _ :: _, [] => false
  | a :: pt, b :: st => decide (a = b) && charsHaveHead pt st

/-- Python `s.startswith(p)`. -/
def strStartsWith (s p : String) : Bool := charsHaveHead p.data s.data

/-- Split a character list at every occurrence of the separator. -/
def charsSplit (c : Char) : List Char → List (List Char)
  | [] => [[]]
  | a :: t =>
    match charsSplit c t with
    | [] => [[]]
    | g :: gs => if a = c then [] :: g :: gs else (a :: g) :: gs

/-- Python `s.split(sep)` for a one-character separator (keeps empty
pieces, as Python does). -/
def strSplit (s : String) (c : Char) : List String :=
  (charsSplit c s.data).map String.mk

/-- Python `s.replace(a, b)` for one-character arguments. -/
def strReplaceChar (s : String) (a b : Char) : String :=
  String.mk (s.data.map fun c => if c = a then b else c)

/-- Python `c in s`. -/
def strContainsChar (s : String) (c : Char) : Bool :=
  s.data.any fun a => decide (a = c)

/-- Decimal digit accumulator for `parseNat`. -/
def parseNatAux : List Char → Nat → Option Nat
  | [], acc => some acc
  | c :: t, acc =>
    if 48 ≤ c.toNat ∧ c.toNat ≤ 57 then parseNatAux t (acc * 10 + (c.toNat - 48))
    else none

/-- Python `int(s)` on a decimal string: `none` models the ValueError on a
malformed number. -/
def parseNat (s : String) : Option Nat :=
  if s.data = [] then none else parseNatAux s.data 0

/-- Modelled from the spec: virtual-address widths of the codec
(inception_util.py / inception_conf.py are not under src/).  A locator is a
48-bit value split into a 16-bit datacenter field, a 16-bit switch field
and a 16-bit host field (spec section 4.1: datacenter bits, switch bits,
host bits with fixed masks). -/
def HOST_FIELD : Nat := 2 ^ 16

/-- Modelled from the spec: width of the combined datacenter+switch area. -/
def SWITCH_FIELD : Nat := 2 ^ 32

/-- Modelled from the spec: `encodeSwitchPrefix(datacenterId, switchOrdinal)`
of inception_util.create_swc_vmac — deterministic and collision-free for
distinct pairs within the field widths. -/
def create_swc_vmac (dcenter switch_id : Nat) : Nat :=
  dcenter * SWITCH_FIELD + switch_id * HOST_FIELD

/-- Modelled from the spec: datacenter-level prefix used for gateway rules
(inception_util.create_dc_vmac); the argument is the datacenter id string
parsed from the gateway port name (source line 232). -/
def create_dc_vmac (dcenter : String) : Nat :=
  ((parseNat dcenter).getD 0) * SWITCH_FIELD

/-- Modelled from the spec: `encodeHostLocator(switchPrefix, hostOrdinal)`
of inception_util.create_vm_vmac. -/
def create_vm_vmac (switch_vmac vm_id : Nat) : Nat :=
  switch_vmac + vm_id

/-- Modelled from the spec: inception_util.generate_vm_id turns the
per-switch host counter value into the host ordinal of the locator. -/
def generate_vm_id (topid : Nat) : Nat := topid

/-- Modelled from the spec: `decodeSwitchPrefix` (source name
inception_util.get_swc_prefix, renamed here): keeps the datacenter and
switch fields, clears the host field. -/
def get_swc_pfx (vmac : Nat) : Nat :=
  vmac / HOST_FIELD * HOST_FIELD

/-- Modelled from the spec: `decodeDatacenterPrefix` (source name
inception_util.get_dc_prefix, renamed here): keeps the datacenter field. -/
def get_dc_pfx (vmac : Nat) : Nat :=
  vmac / SWITCH_FIELD * SWITCH_FIELD

/-- Modelled from the spec: inception_conf.SWITCH_MASK — mask covering the
datacenter and switch fields. -/
def SWITCH_MASK : Nat := (SWITCH_FIELD - 1) * HOST_FIELD

/-- Modelled from the spec: inception_conf.DCENTER_MASK — mask covering the
datacenter field. -/
def DCENTER_MASK : Nat := (HOST_FIELD - 1) * SWITCH_FIELD

/-- Modelled from the spec: inception_util.tuple_to_str serializes a tuple
of strings for storage in a znode. -/
def tuple_to_str (t : List String) : String := String.intercalate "," t

/-- Modelled from the spec: inception_util.str_to_tuple, inverse of
`tuple_to_str` for components free of the separator. -/
def str_to_tuple (s : String) : List String := strSplit s ','

/-- Modelled from the spec: priority bands of inception_priority.py (not
under src/).  Only the strict ordering
ARP > DHCP > HOST_BCAST > SWITCH_BCAST > DATA_FWD > NORMAL is specified. -/
def PRIO_ARP : Nat := 5

/-- Modelled from the spec: DHCP-intercept priority band. -/
def PRIO_DHCP : Nat := 4

/-- Modelled from the spec: per-local-port broadcast-out priority band. -/
def HOST_BCAST : Nat := 3

/-- Modelled from the spec: switch-wide broadcast-in priority band. -/
def SWITCH_BCAST : Nat := 2

/-- Modelled from the spec: unicast data-forwarding priority band. -/
def DATA_FWD : Nat := 1

/-- Modelled from the spec: default (drop) priority band. -/
def PRIO_NORMAL : Nat := 0

/-- Modelled from the spec: inception_conf path of the host location
directory in the durable store. -/
def MAC_TO_POSITION : String := "/inception/mac_to_position"

/-- Modelled from the spec: inception_conf path of the per-switch id
counter znodes. -/
def DPID_TO_ID : String := "/inception/dpid_to_id"

/-- Modelled from the spec: inception_conf path of the flow-record area. -/
def MAC_TO_FLOWS : String := "/inception/mac_to_flows"

/-- Modelled from the spec: inception_conf path of the switch prefix
(virtual MAC) znodes. -/
def DPID_TO_VMAC : String := "/inception/dpid_to_vmac"

/-- Modelled from the spec: inception_conf path of the ARP directory. -/
def IP_TO_MAC : String := "/inception/ip_to_mac"

/-- Modelled from the spec: CONF.zk_failover, base path of the failover
log. -/
def ZK_FAILOVER : String := "/inception/failover"

/-- Standard ethertype value for ARP (ryu.ofproto.ether.ETH_TYPE_ARP). -/
def ETH_TYPE_ARP : Nat := 2054

/-- Standard IP protocol number for UDP (ryu.ofproto.inet.IPPROTO_UDP). -/
def IPPROTO_UDP : Nat := 17

/-- Modelled from the spec: inception_dhcp.DHCP_CLIENT_PORT (standard
DHCP client UDP port). -/
def DHCP_CLIENT_PORT : Nat := 68

/-- Modelled from the spec: inception_dhcp.DHCP_SERVER_PORT (standard
DHCP server UDP port). -/
def DHCP_SERVER_PORT : Nat := 67

/-- Key of the in-memory flow-record table `mac_to_flows`.  In the source
both host MAC strings (handle_migration) and locator prefixes
(set_nonlocal_flow) are used as keys of the same dict; here locators are
numbers, so the union is tagged. -/
inductive FlowKey where
  | host (mac : String)
  | vpfx (v : Nat)
  deriving DecidableEq

/-- OpenFlow match of an emitted rule, restricted to the match shapes the
source constructs. -/
inductive OFMatch where
  | ethType (t : Nat)
  | dhcp (udp_src : Nat)
  | inPortBcast (in_port : String)
  | bcastDst
  | ethDstExact (vmac : Nat)
  | ethDstMasked (vmac mask : Nat)
  | matchAll
  deriving DecidableEq

/-- Action of an emitted rule. -/
inductive FlowAction where
  | output (port : String)
  | outputAll
  | outputController
  | setFieldEthDst (mac : String)
  deriving DecidableEq

/-- OFPFC_ADD versus OFPFC_MODIFY_STRICT. -/
inductive FlowCmd where
  | add
  | modifyStrict
  deriving DecidableEq

/-- An OFPFlowMod sent to a switch. -/
structure FlowMod where
  dpid : String
  priority : Nat
  cmd : FlowCmd
  mtch : OFMatch
  actions : List FlowAction
  deriving DecidableEq

/-- One operation of a ZooKeeper transaction. -/
inductive TxnOp where
  | create (path : String) (data : ZVal)
  | setData (path : String) (data : ZVal)
  | delete (path : String)
  deriving DecidableEq

/-- An outbound RPC call to the remote controller. -/
inductive RpcCall where
  | updatePosition (mac dcenter : String) (vmac : Nat)
  | updateMigrationFlow (mac dcenter : String)
  | updateGatewayFlow (mac dcenter : String)
  deriving DecidableEq

/-- A port reported in a switch-connect event; `port_no` is the stringified
port number (`str(port.port_no)` at source line 197). -/
structure EvPort where
  port_no : String
  name : String
  deriving DecidableEq

/-- The whole controller state: configuration, the durable store, the
in-memory caches of source lines 109-130, and ghost logs of the externally
visible effects (emitted flow rules, RPC calls, committed transactions,
relayed DHCP packets). -/
structure St where
  dcenter : String
  ip_pfx : String
  num_switches : Nat
  store : List (String × ZVal)
  dpset : List String
  dpid_to_ip : List (String × String)
  ip_to_dpid : List (String × String)
  dpid_to_conns : List (String × List (String × String))
  mac_to_position : List (String × (String × String × String × Nat))
  dpid_to_id : List (String × List (String × String))
  mac_to_flows : List (FlowKey × List (String × Bool))
  ip_to_mac : List (String × String)
  dpid_to_vmac : List (String × Nat)
  dpid_to_topid : List (String × Nat)
  gateway : Option String
  gateway_port : Option String
  switch_count : Nat
  dhcp_server : Option (String × String)
  emitted : List FlowMod
  rpc : List RpcCall
  commits : List (List TxnOp)
  relayed : List (Nat × String)
  deriving DecidableEq

/-- Result of running a piece of the controller: normal return carrying the
new state, or a raised exception carrying the state at raise time (partial
side effects included, as in Python). -/
inductive PRes (α : Type) where
  | ok (s : St) (a : α)
  | err (e : PyErr) (s : St)
  deriving DecidableEq

/-- Sequencing: exceptions propagate. -/
def PRes.pbind {α β : Type} : PRes α → (St → α → PRes β) → PRes β
  | .ok s a, f => f s a
  | .err e s, _ => .err e s

/-- Send an OFPFlowMod (datapath.send_msg): appended to the ghost log. -/
def emit (s : St) (fm : FlowMod) : St :=
  { s with emitted := s.emitted ++ [fm] }

/-- Commit a ZooKeeper transaction (txn.commit()): the whole operation
batch is recorded as a single commit. -/
def addCommit (s : St) (txn : List TxnOp) : St :=
  { s with commits := s.commits ++ [txn] }

/-- Record an outbound RPC call (self.rpc_client....). -/
def addRpc (s : St) (c : RpcCall) : St :=
  { s with rpc := s.rpc ++ [c] }

/-- Python dict subscription `d[k]`: KeyError when the key is missing. -/
def pyGet {β : Type} (s : St) (d : List (String × β)) (k : String) : PRes β :=
  match dget d k with
  | some v => .ok s v
  | none => .err .keyError s

/-- Python `int(v)` on a string: ValueError when unparsable. -/
def pyInt (s : St) (v : String) : PRes Nat :=
  match parseNat v with
  | some n => .ok s n
  | none => .err .valueError s

/-- Immediate (non-transactional) zk.create: raises NodeExistsError when
the znode already exists, as kazoo does. -/
def zk_create (s : St) (path : String) (data : ZVal) : PRes Unit :=
  if (dget s.store path).isSome then .err .nodeExistsError s
  else .ok { s with store := dset s.store path data } ()

/-- zk.get: raises NoNodeError when the znode is missing. -/
def zk_get (s : St) (path : String) : PRes ZVal :=
  match dget s.store path with
  | some v => .ok s v
  | none => .err .noNodeError s

/-- Subscription of the defaultdict `self.mac_to_flows[k]`: reading a
missing key materialises an empty entry (Python defaultdict semantics). -/
def mtfGet (s : St) (k : FlowKey) : St × List (String × Bool) :=
  match dget s.mac_to_flows k with
  | some m => (s, m)
  | none => ({ s with mac_to_flows := dset s.mac_to_flows k [] }, [])

/-- Apply one transaction operation to a store; `none` when the operation
is invalid (create of an existing path, set/delete of a missing path), as
in ZooKeeper. -/
def applyOp (store : List (String × ZVal)) : TxnOp → Option (List (String × ZVal))
  | .create p d => if (dget store p).isSome then none else some (dset store p d)
  | .setData p d => if (dget store p).isSome then some (dset store p d) else none
  | .delete p => if (dget store p).isSome then some (ddel store p) else none

/-- Atomic application of a transaction: all operations apply in order, or
the result is `none` and the caller keeps the unchanged store — ZooKeeper
multi-operation transactions are all-or-nothing. -/
def applyTxn (store : List (String × ZVal)) (ops : List TxnOp) :
    Option (List (String × ZVal)) :=
  ops.foldlM applyOp store

/-- Python-level argument of a method call.  `txnArg` marks the transaction
object (its operation list is threaded separately). -/
inductive PyArg where
  | str (v : String)
  | nat (v : Nat)
  | txnArg
  | bool (v : Bool)
  deriving DecidableEq

/-- Body of `Inception.update_position` (source lines 493-503): serialize
the position tuple, write it into the transaction (set_data when the host
is already known, create otherwise) and update the in-memory cache. -/
def update_position (s : St) (mac dcenter dpid port : String) (vmac : Nat)
    (txn : List TxnOp) : St × List TxnOp :=
  let zk_data := ZVal.str (tuple_to_str [dcenter, dpid, port, toString vmac])
  let zk_path := MAC_TO_POSITION ++ "/" ++ mac
  let txn :=
    if (dget s.mac_to_position mac).isSome then txn ++ [TxnOp.setData zk_path zk_data]
    else txn ++ [TxnOp.create zk_path zk_data]
  ({ s with mac_to_position := dset s.mac_to_position mac (dcenter, dpid, port, vmac) }, txn)

/-- Call-site model of `self.update_position(...)`: Python binds the listed
positional arguments to the six parameters `(mac, dcenter, dpid, port,
vmac, txn)` of source line 493; any other argument count raises
TypeError. -/
def update_position_call (s : St) (args : List PyArg) (txn : List TxnOp) :
    PRes (List TxnOp) :=
  match args with
  | [.str mac, .str dcenter, .str dpid, .str port, .nat vmac, .txnArg] =>
      let (s2, txn2) := update_position s mac dcenter dpid port vmac txn
      .ok s2 txn2
  | _ => .err .typeError s

/-- Body of `Inception.set_nonlocal_flow` (source lines 579-625).  Note
that the subscription `self.mac_to_flows[mac_record]` at line 590
materialises the key (defaultdict), so the membership test of line 619 is
false from then on and the parent znode create of line 620 is dead. -/
def set_nonlocal_flow (s : St) (dpid : String) (mac mask : Nat) (port : String)
    (txn : List TxnOp) (flow_add : Bool) : PRes (List TxnOp) :=
  let mac_record := if mask = DCENTER_MASK then get_dc_pfx mac else get_swc_pfx mac
  let pr := mtfGet s (FlowKey.vpfx mac_record)
  let s := pr.1
  let flows_rec := pr.2
  if (dget flows_rec dpid).isSome then
    -- don't set up redundant flows
    .ok s txn
  else if s.dpset.contains dpid then
    let flow_cmd := if flow_add then FlowCmd.add else FlowCmd.modifyStrict
    let s := emit s { dpid := dpid, priority := DATA_FWD, cmd := flow_cmd,
                      mtch := OFMatch.ethDstMasked mac mask,
                      actions := [FlowAction.output port] }
    let txn :=
      if (dget s.mac_to_flows (FlowKey.vpfx mac_record)).isNone then
        txn ++ [TxnOp.create (MAC_TO_FLOWS ++ "/" ++ toString mac_record) ZVal.nil]
      else txn
    let inner := dset ((dget s.mac_to_flows (FlowKey.vpfx mac_record)).getD []) dpid true
    let s := { s with mac_to_flows := dset s.mac_to_flows (FlowKey.vpfx mac_record) inner }
    let txn := txn ++
      [TxnOp.create (MAC_TO_FLOWS ++ "/" ++ toString mac_record ++ "/" ++ dpid) ZVal.nil]
    .ok s txn
  else
    -- self.dpset.get(...) returned None and the attribute access fails
    .err .attributeError s

/-- Call-site model of `self.set_nonlocal_flow(...)`, parameters
`(dpid, mac, mask, port, txn, flow_add=True)` of source line 579.  The
call sites inside `handle_migration` pass five positional arguments (the
host MAC string where a locator and a mask are expected, and the
transaction object in the port slot); executing such a call raises
TypeError in Python as well, via `int()` applied to the transaction
object at line 603, modelled here at the call boundary. -/
def set_nonlocal_flow_call (s : St) (args : List PyArg) (txn : List TxnOp) :
    PRes (List TxnOp) :=
  match args with
  | [.str dpid, .nat mac, .nat mask, .str port, .txnArg] =>
      set_nonlocal_flow s dpid mac mask port txn true
  | [.str dpid, .nat mac, .nat mask, .str port, .txnArg, .bool flow_add] =>
      set_nonlocal_flow s dpid mac mask port txn flow_add
  | _ => .err .typeError s

/-- Body of `Inception.set_local_flow` (source lines 553-577): one exact
match rule on the host locator, rewriting to the real MAC and forwarding
to the local port.  The transaction parameter is never used by the source
body. -/
def set_local_flow (s : St) (dpid : String) (vmac : Nat) (mac : String) (port : String)
    (txn : List TxnOp) : PRes (List TxnOp) :=
  if s.dpset.contains dpid then
    .ok (emit s { dpid := dpid, priority := DATA_FWD, cmd := FlowCmd.add,
                  mtch := OFMatch.ethDstExact vmac,
                  actions := [FlowAction.setFieldEthDst mac, FlowAction.output port] }) txn
  else .err .attributeError s

/-- Step 2 of the migration protocol (source lines 542-549): for every
switch other than the new one that holds a flow towards the host, redirect
it to the tunnel port facing the new switch.  (Unreachable in the source:
`handle_migration` raises TypeError earlier.) -/
def migrateLoop (s : St) (mac ip dpid_new : String) (txn : List TxnOp) :
    List (String × Bool) → PRes (List TxnOp)
  | [] => .ok s txn
  | (relate_dpid, _) :: rest =>
    if relate_dpid = dpid_new then migrateLoop s mac ip dpid_new txn rest
    else
      (pyGet s s.dpid_to_conns relate_dpid).pbind fun s conns =>
      (pyGet s conns ip).pbind fun s fwd_port =>
      (set_nonlocal_flow_call s [.str relate_dpid, .str mac, .str fwd_port, .txnArg, .bool false] txn).pbind
        fun s txn =>
      migrateLoop s mac ip dpid_new txn rest

/-- Body of `Inception.handle_migration` (source lines 505-551).  The
update_position call of source line 518 passes five arguments. -/
def handle_migration (s : St) (mac dpid_old port_old dpid_new port_new : String)
    (txn : List TxnOp) : PRes (List TxnOp × Bool) :=
  if (dpid_old, port_old) = (dpid_new, port_new) then
    -- no migration
    .ok s (txn, false)
  else
    (update_position_call s [.str mac, .str s.dcenter, .str dpid_new, .str port_new, .txnArg] txn).pbind
      fun s txn =>
    if dpid_old = dpid_new then
      -- same switch migration (source line 522, five positional arguments)
      (set_nonlocal_flow_call s [.str dpid_new, .str mac, .str port_new, .txnArg, .bool false] txn).pbind
        fun s txn => .ok s (txn, true)
    else
      -- different switch migration: two-step update
      (pyGet s s.dpid_to_ip dpid_new).pbind fun s ip =>
      let (s, flows_mac) := mtfGet s (FlowKey.host mac)
      let inner := dset ((dget s.mac_to_flows (FlowKey.host mac)).getD []) dpid_new true
      let (s, txn, flow_add) :=
        if (dget flows_mac dpid_new).isSome then (s, txn, false)
        else
          ({ s with mac_to_flows := dset s.mac_to_flows (FlowKey.host mac) inner },
           txn ++ [TxnOp.create (MAC_TO_FLOWS ++ "/" ++ mac ++ "/" ++ dpid_new) ZVal.nil],
           true)
      (set_nonlocal_flow_call s [.str dpid_new, .str mac, .str port_new, .txnArg, .bool flow_add] txn).pbind
        fun s txn =>
      (migrateLoop s mac ip dpid_new txn ((dget s.mac_to_flows (FlowKey.host mac)).getD [])).pbind
        fun s txn =>
      .ok s (txn, true)

/-- Body of `Inception._do_source_learning` (source lines 464-491). -/
def _do_source_learning (s : St) (dpid in_port ethernet_src : String) (txn : List TxnOp) :
    PRes (List TxnOp) :=
  match dget s.mac_to_position ethernet_src with
  | none =>
    (pyGet s s.dpid_to_topid dpid).pbind fun s topid =>
    let vm_id := generate_vm_id topid
    (pyGet s s.dpid_to_vmac dpid).pbind fun s switch_vmac =>
    let vmac := create_vm_vmac switch_vmac vm_id
    (update_position_call s
        [.str ethernet_src, .str s.dcenter, .str dpid, .str in_port, .nat vmac, .txnArg] txn).pbind
      fun s txn =>
    let s := addRpc s (RpcCall.updatePosition ethernet_src s.dcenter vmac)
    set_local_flow s dpid vmac ethernet_src in_port txn
  | some (_dc, dpid_record, port_record, _vm) =>
    (handle_migration s ethernet_src dpid_record port_record dpid in_port txn).pbind fun s r =>
    if r.2 then
      if (some dpid_record, some port_record) = (s.gateway, s.gateway_port) then
        -- migration involves another datacenter
        let s := addRpc s (RpcCall.updateMigrationFlow ethernet_src s.dcenter)
        let s := addRpc s (RpcCall.updateGatewayFlow ethernet_src s.dcenter)
        .ok s r.1
      else .ok s r.1
    else .ok s r.1

/-- Modelled from the spec: ryu/app/inception_arp.py is not under src/.
Per spec sections 4.5 and 6, the ARP handler records the learned
(ip → mac) binding in the ip_to_mac directory, adding its durable write to
the transaction supplied by the caller (the source call site at line 452
passes the same txn object). -/
def inception_arp_handle (s : St) (dpid in_port src_ip eth_src : String)
    (txn : List TxnOp) : St × List TxnOp :=
  ({ s with ip_to_mac := dset s.ip_to_mac src_ip eth_src },
   txn ++ [TxnOp.create (IP_TO_MAC ++ "/" ++ src_ip) (ZVal.str eth_src)])

/-- Modelled from the spec: ryu/app/inception_dhcp.py is not under src/.
The source call site (line 461) passes no transaction; per spec section
4.4 the DHCP handler only relays the intercepted packet between host and
DHCP server, modelled as a relay log entry. -/
def inception_dhcp_handle (s : St) (udp_src : Nat) (eth_src : String) : St :=
  { s with relayed := s.relayed ++ [(udp_src, eth_src)] }

/-- Modelled from the spec: inception_dhcp.update_server records where the
DHCP server was found (source line 222). -/
def inception_dhcp_update_server (s : St) (dpid port_no : String) : St :=
  { s with dhcp_server := some (dpid, port_no) }

/-- Body of `Inception._process_packet_in` (source lines 441-462): parse
the raw payload, do source learning, then dispatch on the ethertype to the
ARP and DHCP handlers. -/
def _process_packet_in (s : St) (dpid in_port : String) (data : ZVal) (txn : List TxnOp) :
    PRes (List TxnOp) :=
  match data with
  | ZVal.pkt pkt =>
    (_do_source_learning s dpid in_port pkt.eth_src txn).pbind fun s txn =>
    (match pkt.body with
     | PacketBody.arp src_ip =>
        let pr := inception_arp_handle s dpid in_port src_ip pkt.eth_src txn
        PRes.ok pr.1 pr.2
     | PacketBody.ipv4 proto udp_src =>
        if proto = IPPROTO_UDP ∧ (udp_src = DHCP_CLIENT_PORT ∨ udp_src = DHCP_SERVER_PORT) then
          PRes.ok (inception_dhcp_handle s udp_src pkt.eth_src) txn
        else PRes.ok s txn
     | PacketBody.plain => PRes.ok s txn)
  | _ => .err .parseError s

/-- Body of `Inception.packet_in_handler` (source lines 421-439): one
transaction per packet-in, holding every durable write of the processing
plus the deletion of the failover-log entry for (dpid, in_port), then one
commit.  The failover-log zk.create of source line 434 is commented out in
the source. -/
def packet_in_handler (s : St) (dpid in_port : String) (data : ZVal) : PRes Unit :=
  let znode_name := tuple_to_str [dpid, in_port]
  let log_path := ZK_FAILOVER ++ "/" ++ znode_name
  (_process_packet_in s dpid in_port data []).pbind fun s txn =>
  let txn := txn ++ [TxnOp.delete log_path]
  .ok (addCommit s txn) ()

/-- zk.get_children on a base path: names of the direct children. -/
def zk_children (store : List (String × ZVal)) (base : String) : List String :=
  store.filterMap fun kv =>
    let rest := kv.fst.drop (base.length + 1)
    if strStartsWith kv.fst (base ++ "/") then
      if strContainsChar rest '/' then none
      else if rest = "" then none
      else some rest
    else none

/-- Loop body of `Inception._do_failover` (source lines 411-419): per
failover entry, one transaction holding the replayed processing plus the
deletion of the log entry, then one commit. -/
def failoverLoop (s : St) : List String → PRes Unit
  | [] => .ok s ()
  | znode :: rest =>
    ((zk_get s (ZK_FAILOVER ++ "/" ++ znode)).pbind fun s data =>
     match str_to_tuple znode with
     | [dpid, in_port] =>
       (_process_packet_in s dpid in_port data []).pbind fun s txn =>
       PRes.ok (addCommit s (txn ++ [TxnOp.delete (ZK_FAILOVER ++ "/" ++ znode)])) ()
     | _ => PRes.err .valueError s).pbind fun s _ =>
    failoverLoop s rest

/-- Body of `Inception._do_failover` (source lines 404-419). -/
def _do_failover (s : St) : PRes Unit :=
  failoverLoop s (zk_children s.store ZK_FAILOVER)

/-- Port-classification loop of the switch-connect handler (source lines
191-249), threading the accumulated non-mesh port list and the `peer_ip`
local variable (bound only by the mesh branch; the gateway branch logs it
at source line 238 and raises NameError when it is unbound). -/
def portLoop (s : St) (dpid ip : String) :
    List EvPort → List String → Option String → PRes (List String × Option String)
  | [], nm, pip => .ok s (nm, pip)
  | p :: rest, nm, pip =>
    if strStartsWith p.name "obr" && strContainsChar p.name '_' then
      match strSplit p.name '_' with
      | [_, sfx] =>
        let ip_suffix := strReplaceChar sfx '-' '.'
        let peer_ip := s.ip_pfx ++ "." ++ ip_suffix
        let conns := dset ((dget s.dpid_to_conns dpid).getD []) peer_ip p.port_no
        let s := { s with dpid_to_conns := dset s.dpid_to_conns dpid conns }
        match dget s.ip_to_dpid peer_ip with
        | some peer_dpid =>
          (pyGet s s.dpid_to_vmac peer_dpid).pbind fun s peer_vmac =>
          (set_nonlocal_flow s dpid peer_vmac SWITCH_MASK p.port_no [] true).pbind fun s txn =>
          portLoop (addCommit s txn) dpid ip rest nm (some peer_ip)
        | none => portLoop s dpid ip rest nm (some peer_ip)
      | _ => .err .valueError s
    else if p.name = "eth_dhcpp" then
      portLoop (inception_dhcp_update_server s dpid p.port_no) dpid ip rest nm pip
    else if strStartsWith p.name "gate" then
      match strSplit p.name '_' with
      | [_, dcenter, sfx] =>
        let ip_pfx2 := if dcenter = "1" then "135.207" else "135.197"
        let remote_ip := ip_pfx2 ++ "." ++ sfx
        let peer_dc_vmac := create_dc_vmac dcenter
        let conns := dset ((dget s.dpid_to_conns dpid).getD []) remote_ip p.port_no
        let s := { s with gateway := some dpid, gateway_port := some p.port_no,
                          dpid_to_conns := dset s.dpid_to_conns dpid conns }
        match pip with
        | none => .err .nameError s
        | some _ =>
          let nm := nm ++ [p.port_no]
          (set_nonlocal_flow s dpid peer_dc_vmac DCENTER_MASK p.port_no [] true).pbind fun s txn =>
          portLoop (addCommit s txn) dpid ip rest nm pip
      | _ => .err .valueError s
    else
      -- a port connecting local guests
      portLoop s dpid ip rest (nm ++ [p.port_no]) pip

/-- Connect branch of `Inception.switch_connection_handler` (source lines
162-373). -/
def handle_switch_enter (s : St) (dpid ip : String) (ports : List EvPort) : PRes Unit :=
  -- ryu dpset registers the connecting datapath before the event is dispatched
  let s := { s with dpset := dpid :: s.dpset }
  let s := { s with switch_count := s.switch_count + 1 }
  (if (dget s.dpid_to_id dpid).isNone then
      -- the in-memory cache self.dpid_to_id is never written by the source,
      -- so this guard is true on every connect event, repeated ones included
      (zk_create s (DPID_TO_ID ++ "/" ++ dpid) ZVal.nil).pbind fun s _ =>
      PRes.ok { s with dpid_to_topid := dset s.dpid_to_topid dpid 1 } ()
    else PRes.ok s ()).pbind fun s _ =>
  (if (dget s.dpid_to_vmac dpid).isNone then
      (pyInt s s.dcenter).pbind fun s dcN =>
      let switch_vmac := create_swc_vmac dcN s.switch_count
      let s := { s with dpid_to_vmac := dset s.dpid_to_vmac dpid switch_vmac }
      (zk_create s (DPID_TO_VMAC ++ "/" ++ dpid) (ZVal.str (toString switch_vmac))).pbind fun s _ =>
      PRes.ok s ()
    else PRes.ok s ()).pbind fun s _ =>
  let s := { s with dpid_to_ip := dset s.dpid_to_ip dpid ip,
                    ip_to_dpid := dset s.ip_to_dpid ip dpid }
  (portLoop s dpid ip ports [] none).pbind fun s nmp =>
  match nmp with
  | (non_mesh_ports, _) =>
    let s := emit s { dpid := dpid, priority := PRIO_ARP, cmd := FlowCmd.add,
                      mtch := OFMatch.ethType ETH_TYPE_ARP,
                      actions := [FlowAction.outputController] }
    let s := emit s { dpid := dpid, priority := PRIO_DHCP, cmd := FlowCmd.add,
                      mtch := OFMatch.dhcp DHCP_CLIENT_PORT,
                      actions := [FlowAction.outputController] }
    let s := emit s { dpid := dpid, priority := PRIO_DHCP, cmd := FlowCmd.add,
                      mtch := OFMatch.dhcp DHCP_SERVER_PORT,
                      actions := [FlowAction.outputController] }
    let s := non_mesh_ports.foldl
      (fun s port_no => emit s { dpid := dpid, priority := HOST_BCAST, cmd := FlowCmd.add,
                                 mtch := OFMatch.inPortBcast port_no,
                                 actions := [FlowAction.outputAll] }) s
    let s := emit s { dpid := dpid, priority := SWITCH_BCAST, cmd := FlowCmd.add,
                      mtch := OFMatch.bcastDst,
                      actions := non_mesh_ports.map FlowAction.output }
    let s := emit s { dpid := dpid, priority := PRIO_NORMAL, cmd := FlowCmd.add,
                      mtch := OFMatch.matchAll, actions := [] }
    if s.switch_count = s.num_switches then _do_failover s else PRes.ok s ()

/-- Python `del d[k]`: KeyError when the key is missing. -/
def pyDel {β : Type} (s : St) (d : List (String × β)) (k : String) :
    PRes (List (String × β)) :=
  if (dget d k).isSome then .ok s (ddel d k) else .err .keyError s

/-- Host-cleanup loop of the disconnect branch (source lines 391-400).
Line 392 unpacks the four-tuple position into three names, a ValueError on
the first iteration; the rest of the loop body is unreachable. -/
def disconnectLoop (s : St) (dpid : String) (txn : List TxnOp) :
    List (String × (String × String × String × Nat)) → PRes (List TxnOp)
  | [] => .ok s txn
  | _ :: _ => .err .valueError s

/-- Disconnect branch of `Inception.switch_connection_handler` (source
lines 375-402).  Line 384 logs `self.dpid_to_ip[dpid]` after that entry
was deleted at line 382, a KeyError on every disconnect of a known
switch. -/
def handle_switch_leave (s : St) (dpid : String) : PRes Unit :=
  -- ryu dpset removes the disconnecting datapath before the event is dispatched
  let s := { s with dpset := s.dpset.erase dpid }
  let txn : List TxnOp := []
  (pyGet s s.dpid_to_ip dpid).pbind fun s ip =>
  (pyDel s s.ip_to_dpid ip).pbind fun s d =>
  let s := { s with ip_to_dpid := d }
  (pyDel s s.dpid_to_ip dpid).pbind fun s d =>
  let s := { s with dpid_to_ip := d }
  (pyGet s s.dpid_to_ip dpid).pbind fun s _ =>
  (pyDel s s.dpid_to_conns dpid).pbind fun s d =>
  let s := { s with dpid_to_conns := d }
  (disconnectLoop s dpid txn s.mac_to_position).pbind fun s txn =>
  PRes.ok (addCommit s txn) ()

/-
Analysis helpers and concrete scenario states.
-/

/-- The state carried by a result (the raise-time state on error). -/
def stOf {α : Type} : PRes α → St
  | .ok s _ => s
  | .err _ s => s

/-- Whether a run finished without raising. -/
def okOf {α : Type} : PRes α → Bool
  | .ok _ _ => true
  | .err _ _ => false

/-- The exception a run raised, if any. -/
def errOf {α : Type} : PRes α → Option PyErr
  | .ok _ _ => none
  | .err e _ => some e

/-- A fresh controller for datacenter "1" with tunnel IP prefix "10.0";
`num_switches` is set so that the failover replay is not triggered by the
scenarios below. -/
def initSt : St := {
  dcenter := "1", ip_pfx := "10.0", num_switches := 0,
  store := [], dpset := [], dpid_to_ip := [], ip_to_dpid := [], dpid_to_conns := [],
  mac_to_position := [], dpid_to_id := [], mac_to_flows := [], ip_to_mac := [],
  dpid_to_vmac := [], dpid_to_topid := [], gateway := none, gateway_port := none,
  switch_count := 0, dhcp_server := none, emitted := [], rpc := [], commits := [],
  relayed := [] }

/-- A plain (non-ARP, non-IP) data frame from the given source MAC. -/
def pktOf (src : String) : ZVal :=
  ZVal.pkt { eth_src := src, body := PacketBody.plain }

/-- Scenario: switch s1 connects with one local port, then hosts aa and bb
send their first frames from ports p1 and p2 of s1. -/
def twoHostsRun : PRes Unit :=
  (handle_switch_enter initSt "s1" "10.0.0.1" [{ port_no := "1", name := "eth1" }]).pbind
    fun s _ =>
  (packet_in_handler s "s1" "p1" (pktOf "aa")).pbind fun s _ =>
  packet_in_handler s "s1" "p2" (pktOf "bb")

/-- Scenario prefix: switches s1 and s2 connect, host aa is learned at
(s1, p1). -/
def migrationPre : PRes Unit :=
  (handle_switch_enter initSt "s1" "10.0.0.1" [{ port_no := "1", name := "eth1" }]).pbind
    fun s _ =>
  (handle_switch_enter s "s2" "10.0.0.2" [{ port_no := "1", name := "eth1" }]).pbind
    fun s _ =>
  packet_in_handler s "s1" "p1" (pktOf "aa")

/-- Scenario: after `migrationPre`, host aa is observed at the other
switch s2, port p2 — a cross-switch migration. -/
def migrationRun : PRes Unit :=
  migrationPre.pbind fun s _ => packet_in_handler s "s2" "p2" (pktOf "aa")

/-- Scenario prefix: switch s1 connects once. -/
def dupConnectPre : PRes Unit :=
  handle_switch_enter initSt "s1" "10.0.0.1" [{ port_no := "1", name := "eth1" }]

/-- Scenario: switch s1 connects a second time (duplicate connect event
for an already-known switch). -/
def dupConnectRun : PRes Unit :=
  dupConnectPre.pbind fun s _ =>
    handle_switch_enter s "s1" "10.0.0.1" [{ port_no := "1", name := "eth1" }]

/-- Per-entry commit batches of a failover replay over the outstanding
log entries, in order: each entry's znode holds replayable data, its name
parses as (switchId, inPort), the replayed processing succeeds, and the
entry contributes exactly one batch — the processing transaction with the
deletion of that entry's log path appended. -/
def failoverCommits (s : St) : List String → List (List TxnOp) → Prop
  | [], batches => batches = []
  | znode :: rest, batches =>
    ∃ data dpid in_port s0 ptxn batches0,
      dget s.store (ZK_FAILOVER ++ "/" ++ znode) = some data
      ∧ str_to_tuple znode = [dpid, in_port]
      ∧ _process_packet_in s dpid in_port data [] = PRes.ok s0 ptxn
      ∧ batches = (ptxn ++ [TxnOp.delete (ZK_FAILOVER ++ "/" ++ znode)]) :: batches0
      ∧ failoverCommits (addCommit s0 (ptxn ++ [TxnOp.delete (ZK_FAILOVER ++ "/" ++ znode)]))
          rest batches0

/-- Scenario: after switch s1 connected, the controller recovers with two
outstanding failover-log entries — hosts aa and bb each have an unlogged
packet-in at (s1, p1) and (s1, p2). -/
def failoverPre : St :=
  let s0 := stOf dupConnectPre
  let st1 := dset s0.store (ZK_FAILOVER ++ "/" ++ tuple_to_str ["s1", "p1"]) (pktOf "aa")
  let st2 := dset st1 (ZK_FAILOVER ++ "/" ++ tuple_to_str ["s1", "p2"]) (pktOf "bb")
  { s0 with store := st2 }

/-- Scenario prefix: switch s2 (tunnel endpoint 10.0.0.2) connects with one
local port. -/
def gatewayPre : PRes Unit :=
  handle_switch_enter initSt "s2" "10.0.0.2" [{ port_no := "1", name := "eth1" }]

/-- Scenario: switch s1 then connects with a mesh port towards s2, a
gateway port towards datacenter 1, and one local port. -/
def gatewayRun : PRes Unit :=
  gatewayPre.pbind fun s _ =>
    handle_switch_enter s "s1" "10.0.0.1"
      [{ port_no := "1", name := "obr1_0-2" }, { port_no := "2", name := "gate_1_0-9" },
       { port_no := "3", name := "eth1" }]

/-- True when two distinct entries of the emitted-rule list carry the same
(switch, match) pair. -/
def dupRuleKey : List FlowMod → Bool
  | [] => false
  | fm :: t => t.any (fun g => decide (g.dpid = fm.dpid ∧ g.mtch = fm.mtch)) || dupRuleKey t

/-- Whether a rule is a masked (non-local) unicast rule, i.e. one emitted
by `set_nonlocal_flow`. -/
def isMaskedRule (fm : FlowMod) : Bool :=
  match fm.mtch with
  | OFMatch.ethDstMasked _ _ => true
  | _ => false

/-- Two rules do not share their (switch, match) key. -/
def distinctKey (a b : FlowMod) : Prop :=
  ¬(a.dpid = b.dpid ∧ a.mtch = b.mtch)

instance (a b : FlowMod) : Decidable (distinctKey a b) := by
  unfold distinctKey; infer_instance

/-- The flow-record key under which `set_nonlocal_flow` books a rule for
locator `mac` and mask `mask`. -/
@[reducible] def recKey (mac mask : Nat) : Nat :=
  if mask = DCENTER_MASK then get_dc_pfx mac else get_swc_pfx mac

/-- Whether a raw flow-record table holds an entry for prefix `k` at
switch `d`. -/
def recB (mtf : List (FlowKey × List (String × Bool))) (k : Nat) (d : String) : Bool :=
  (dget ((dget mtf (FlowKey.vpfx k)).getD []) d).isSome

/-- Whether the flow-record table holds an entry for prefix `k` at switch
`dpid`. -/
def flowRecordedB (s : St) (k : Nat) (dpid : String) : Bool :=
  recB s.mac_to_flows k dpid

/-- Every masked rule emitted so far is booked in the flow-record table:
the consistency relation `set_nonlocal_flow` maintains between its ghost
emission log and `mac_to_flows`. -/
def maskedEmitsCovered (s : St) : Prop :=
  ∀ fm ∈ s.emitted, ∀ mac mask, fm.mtch = OFMatch.ethDstMasked mac mask →
    flowRecordedB s (recKey mac mask) fm.dpid = true

/-- Arguments of one `set_nonlocal_flow` invocation. -/
structure NLCall where
  dpid : String
  mac : Nat
  mask : Nat
  port : String
  flow_add : Bool
  deriving DecidableEq

/-- Run a sequence of `set_nonlocal_flow` invocations, each with a fresh
transaction; a raise aborts the remainder of the sequence (the carried
raise-time state is kept — no rule is emitted by a raising call). -/
def runNL : St → List NLCall → St
  | s, [] => s
  | s, c :: cs =>
    match set_nonlocal_flow s c.dpid c.mac c.mask c.port [] c.flow_add with
    | .ok s2 _ => runNL s2 cs
    | .err _ s2 => s2

/-- Whether a connect-event port is classified as a mesh (tunnel) port by
the source (name starts with "obr" and carries an underscore). -/
def isMeshName (name : String) : Bool :=
  strStartsWith name "obr" && strContainsChar name '_'

/-- Port numbers of an event that land in `non_mesh_ports`: everything but
mesh ports and the DHCP uplink — gateway ports included. -/
def nonMeshFilter (ports : List EvPort) : List String :=
  ports.filterMap fun p =>
    if isMeshName p.name then none
    else if p.name = "eth_dhcpp" then none
    else some p.port_no

/-- Extract the ingress port of a host-broadcast-out rule. -/
def hostBcastPort (fm : FlowMod) : Option String :=
  if fm.priority = HOST_BCAST then
    match fm.mtch with
    | OFMatch.inPortBcast p => some p
    | _ => none
  else none

/-- The switch-wide broadcast-in rule with the given output ports. -/
def swBcastRule (dpid : String) (outs : List String) : FlowMod :=
  { dpid := dpid, priority := SWITCH_BCAST, cmd := FlowCmd.add,
    mtch := OFMatch.bcastDst, actions := outs.map FlowAction.output }

/-- The per-port broadcast-out rule. -/
def bcastOutRule (dpid p : String) : FlowMod :=
  { dpid := dpid, priority := HOST_BCAST, cmd := FlowCmd.add,
    mtch := OFMatch.inPortBcast p, actions := [FlowAction.outputAll] }

/-- A fresh controller with switch s1 connected at the datapath layer;
used to exercise `set_nonlocal_flow` sequences concretely. -/
def nlDemoSt : St := { initSt with dpset := ["s1"] }

/-- The ARP-intercept rule of the connect handler. -/
def arpRule (dpid : String) : FlowMod :=
  { dpid := dpid, priority := PRIO_ARP, cmd := FlowCmd.add,
    mtch := OFMatch.ethType ETH_TYPE_ARP, actions := [FlowAction.outputController] }

/-- One DHCP-intercept rule of the connect handler. -/
def dhcpRule (dpid : String) (udp_src : Nat) : FlowMod :=
  { dpid := dpid, priority := PRIO_DHCP, cmd := FlowCmd.add,
    mtch := OFMatch.dhcp udp_src, actions := [FlowAction.outputController] }

/-- The default drop rule of the connect handler. -/
def dropRule (dpid : String) : FlowMod :=
  { dpid := dpid, priority := PRIO_NORMAL, cmd := FlowCmd.add,
    mtch := OFMatch.matchAll, actions := [] }

/-- The state after the fixed rule emissions of the connect handler
(ARP, two DHCP, per-port broadcast-out, broadcast-in, drop) — equal by
unfolding to what `handle_switch_enter` builds after its port loop. -/
def postRules (s3 : St) (dpid : String) (nm : List String) : St :=
  emit (emit (nm.foldl (fun s port_no => emit s (bcastOutRule dpid port_no))
      (emit (emit (emit s3 (arpRule dpid)) (dhcpRule dpid DHCP_CLIENT_PORT))
        (dhcpRule dpid DHCP_SERVER_PORT)))
    (swBcastRule dpid nm)) (dropRule dpid)

/-- The connect handler from its switch-vmac assignment on — equal by
unfolding to the tail of `handle_switch_enter` after the DPID_TO_ID
registration step. -/
def enterStage2 (s : St) (dpid ip : String) (ports : List EvPort) : PRes Unit :=
  (if (dget s.dpid_to_vmac dpid).isNone then
      (pyInt s s.dcenter).pbind fun s dcN =>
        (zk_create
            { s with dpid_to_vmac := dset s.dpid_to_vmac dpid (create_swc_vmac dcN s.switch_count) }
            (DPID_TO_VMAC ++ "/" ++ dpid)
            (ZVal.str (toString (create_swc_vmac dcN s.switch_count)))).pbind fun s _ =>
        PRes.ok s ()
    else PRes.ok s ()).pbind fun s _ =>
  (portLoop { s with dpid_to_ip := dset s.dpid_to_ip dpid ip,
                     ip_to_dpid := dset s.ip_to_dpid ip dpid } dpid ip ports [] none).pbind
    fun s nmp =>
  match nmp with
  | (non_mesh_ports, _) =>
    if (postRules s dpid non_mesh_ports).switch_count
        = (postRules s dpid non_mesh_ports).num_switches
    then _do_failover (postRules s dpid non_mesh_ports)
    else PRes.ok (postRules s dpid non_mesh_ports) ()

/-- The state after the mesh branch records a peer connection. -/
def meshConnSt (s : St) (dpid peer_ip port_no : String) : St :=
  let conns := dset ((dget s.dpid_to_conns dpid).getD []) peer_ip port_no
  { s with dpid_to_conns := dset s.dpid_to_conns dpid conns }

/-- The state after the gateway branch records the gateway and the remote
connection. -/
def gateConnSt (s : St) (dpid remote_ip port_no : String) : St :=
  let conns := dset ((dget s.dpid_to_conns dpid).getD []) remote_ip port_no
  { s with gateway := some dpid, gateway_port := some port_no,
           dpid_to_conns := dset s.dpid_to_conns dpid conns }

/-
Characterization lemmas.
-/

/-- Lookup after insert at the same key. -/
theorem dget_dset_self {α β : Type} [DecidableEq α] (l : List (α × β)) (k : α) (v : β) :
    dget (dset l k v) k = some v := by
  induction l with
  | nil => simp [dget, dset]
  | cons a t ih =>
    obtain ⟨k0, v0⟩ := a
    by_cases hk : k0 = k
    · simp [dget, dset, hk]
    · simp [dget, dset, hk, ih]

/-- Lookup after insert at a different key. -/
theorem dget_dset_ne {α β : Type} [DecidableEq α] (l : List (α × β)) (k k2 : α) (v : β)
    (h : k2 ≠ k) : dget (dset l k v) k2 = dget l k2 := by
  induction l with
  | nil => simp [dget, dset, Ne.symm h]
  | cons a t ih =>
    obtain ⟨k0, v0⟩ := a
    by_cases hk : k0 = k
    · subst hk
      simp [dget, dset, Ne.symm h]
    · by_cases hk2 : k0 = k2 <;> simp [dget, dset, hk, hk2, ih, h]

/-- `handle_migration` either returns immediately (no migration) or raises
TypeError at the five-argument `update_position` call of source line 518,
with the state unchanged: the two-step flow updates of lines 520-549 are
unreachable. -/
theorem handle_migration_eq (s : St) (mac a b c d : String) (txn : List TxnOp) :
    handle_migration s mac a b c d txn =
      if (a, b) = (c, d) then PRes.ok s (txn, false) else PRes.err PyErr.typeError s := by
  unfold handle_migration
  split <;> rfl

/-- zk.get on a present znode returns its data. -/
theorem zk_get_some (s : St) (path : String) (v : ZVal)
    (h : dget s.store path = some v) : zk_get s path = PRes.ok s v := by
  unfold zk_get; rw [h]

/-- The failover replay loop on an empty entry list is done. -/
theorem floop_nil (s : St) : failoverLoop s [] = PRes.ok s () := rfl

/-- One failover entry whose znode parses as (dpid, in_port) and whose
data is present: the loop replays the packet and deletes the log entry in
the same transaction. -/
theorem floop_cons_parsed (s : St) (znode dpid in_port : String) (data : ZVal)
    (rest : List String)
    (hst : dget s.store (ZK_FAILOVER ++ "/" ++ znode) = some data)
    (hpr : str_to_tuple znode = [dpid, in_port]) :
    failoverLoop s (znode :: rest) =
      ((_process_packet_in s dpid in_port data []).pbind fun s txn =>
        PRes.ok (addCommit s (txn ++ [TxnOp.delete (ZK_FAILOVER ++ "/" ++ znode)])) ()).pbind
        fun s _ => failoverLoop s rest := by
  conv_lhs => rw [failoverLoop]
  rw [zk_get_some _ _ _ hst, hpr]
  rfl

/-- defaultdict subscription on a present key: state unchanged. -/
theorem mtfGet_pres (s : St) (k : FlowKey) (m : List (String × Bool))
    (h : dget s.mac_to_flows k = some m) : mtfGet s k = (s, m) := by
  unfold mtfGet; rw [h]

/-- defaultdict subscription on a missing key: an empty entry is
materialised. -/
theorem mtfGet_abs (s : St) (k : FlowKey)
    (h : dget s.mac_to_flows k = none) :
    mtfGet s k = ({ s with mac_to_flows := dset s.mac_to_flows k [] }, []) := by
  unfold mtfGet; rw [h]

/-- A dict subscription on a present key returns its value. -/
theorem pyGet_some {β : Type} (s : St) (d : List (String × β)) (k : String) (v : β)
    (h : dget d k = some v) : pyGet s d k = PRes.ok s v := by
  unfold pyGet; rw [h]

/-- A dict subscription on a missing key raises KeyError. -/
theorem pyGet_none {β : Type} (s : St) (d : List (String × β)) (k : String)
    (h : dget d k = none) : pyGet s d k = PRes.err PyErr.keyError s := by
  unfold pyGet; rw [h]

/-- An observation of a host at exactly its recorded (switch, port) leaves
the state and the transaction untouched and returns normally. -/
theorem dsl_unchanged (s : St) (dpid in_port mac : String) (txn : List TxnOp)
    (dc : String) (vm : Nat)
    (h : dget s.mac_to_position mac = some (dc, dpid, in_port, vm)) :
    _do_source_learning s dpid in_port mac txn = PRes.ok s txn := by
  unfold _do_source_learning
  split
  next hpos => rw [h] at hpos; exact Option.noConfusion hpos
  next dc0 rd rp vm0 hpos =>
    rw [h] at hpos
    simp only [Option.some.injEq, Prod.mk.injEq] at hpos
    obtain ⟨h1, h2, h3, h4⟩ := hpos
    subst h2
    subst h3
    rw [handle_migration_eq]
    simp [PRes.pbind]

/-- Effects of a successful `_do_source_learning`: no commit, the
flow-record table unchanged, only DATA_FWD rules appended to the emission
log, and the host's directory entry pointing at the observed
(switch, port). -/
theorem dsl_ok (s : St) (dpid in_port mac : String) (txn : List TxnOp) (s2 : St)
    (txn2 : List TxnOp)
    (h : _do_source_learning s dpid in_port mac txn = PRes.ok s2 txn2) :
    s2.commits = s.commits ∧ s2.mac_to_flows = s.mac_to_flows
    ∧ (∃ d, s2.emitted = s.emitted ++ d ∧ ∀ fm ∈ d, fm.priority = DATA_FWD)
    ∧ (∃ dc vm, dget s2.mac_to_position mac = some (dc, dpid, in_port, vm)) := by
  unfold _do_source_learning at h
  split at h
  next hpos =>
    cases htop : dget s.dpid_to_topid dpid with
    | none => rw [pyGet_none _ _ _ htop] at h; simp [PRes.pbind] at h
    | some topid =>
      rw [pyGet_some _ _ _ _ htop] at h
      simp only [PRes.pbind] at h
      cases hvm : dget s.dpid_to_vmac dpid with
      | none => rw [pyGet_none _ _ _ hvm] at h; simp [PRes.pbind] at h
      | some swv =>
        rw [pyGet_some _ _ _ _ hvm] at h
        simp only [PRes.pbind, update_position_call, update_position, addRpc,
          set_local_flow, emit] at h
        by_cases hdp : s.dpset.contains dpid = true
        · rw [if_pos hdp] at h
          simp only [PRes.ok.injEq] at h
          obtain ⟨hs2, ht2⟩ := h
          subst hs2
          refine ⟨rfl, rfl, ⟨_, rfl, ?_⟩, ?_⟩
          · intro fm hfm
            simp at hfm
            rw [hfm]
          · exact ⟨s.dcenter, _, dget_dset_self _ _ _⟩
        · rw [if_neg hdp] at h
          exact PRes.noConfusion h
  next dc0 rec_dpid rec_port vm0 hpos =>
    rw [handle_migration_eq] at h
    by_cases heq : (rec_dpid, rec_port) = (dpid, in_port)
    · rw [if_pos heq] at h
      simp only [PRes.pbind] at h
      simp at h
      obtain ⟨hs2, ht2⟩ := h
      subst hs2
      have h1 : rec_dpid = dpid := congrArg Prod.fst heq
      have h2 : rec_port = in_port := congrArg Prod.snd heq
      refine ⟨rfl, rfl, ⟨[], by simp, by simp⟩, ⟨dc0, vm0, ?_⟩⟩
      rw [hpos, h1, h2]
    · rw [if_neg heq] at h
      simp [PRes.pbind] at h

/-- Unfolding of `_process_packet_in` on a parsed packet. -/
theorem process_pkt_eq (s : St) (dpid in_port : String) (pkt : PacketIn)
    (txn : List TxnOp) :
    _process_packet_in s dpid in_port (ZVal.pkt pkt) txn =
      ((_do_source_learning s dpid in_port pkt.eth_src txn).pbind fun s txn =>
       (match pkt.body with
        | PacketBody.arp src_ip =>
           let pr := inception_arp_handle s dpid in_port src_ip pkt.eth_src txn
           PRes.ok pr.1 pr.2
        | PacketBody.ipv4 proto udp_src =>
           if proto = IPPROTO_UDP ∧ (udp_src = DHCP_CLIENT_PORT ∨ udp_src = DHCP_SERVER_PORT) then
             PRes.ok (inception_dhcp_handle s udp_src pkt.eth_src) txn
           else PRes.ok s txn
        | PacketBody.plain => PRes.ok s txn)) := rfl

/-- `_process_packet_in` on an unparsable payload raises. -/
theorem process_str_eq (s : St) (dpid in_port : String) (v : String) (txn : List TxnOp) :
    _process_packet_in s dpid in_port (ZVal.str v) txn = PRes.err PyErr.parseError s := rfl

/-- `_process_packet_in` on an empty payload raises. -/
theorem process_nil_eq (s : St) (dpid in_port : String) (txn : List TxnOp) :
    _process_packet_in s dpid in_port ZVal.nil txn = PRes.err PyErr.parseError s := rfl

/-- Effects of a successful `_process_packet_in` on a decoded packet:
no commit, flow records unchanged, only DATA_FWD emissions, and the
source host located at the observed (switch, port). -/
theorem process_ok (s : St) (dpid in_port : String) (pkt : PacketIn)
    (txn txn2 : List TxnOp) (s2 : St)
    (h : _process_packet_in s dpid in_port (ZVal.pkt pkt) txn = PRes.ok s2 txn2) :
    s2.commits = s.commits ∧ s2.mac_to_flows = s.mac_to_flows
    ∧ (∃ d, s2.emitted = s.emitted ++ d ∧ ∀ fm ∈ d, fm.priority = DATA_FWD)
    ∧ (∃ dc vm, dget s2.mac_to_position pkt.eth_src = some (dc, dpid, in_port, vm)) := by
  rw [process_pkt_eq] at h
  cases hdsl : _do_source_learning s dpid in_port pkt.eth_src txn with
  | err e s3 => rw [hdsl] at h; simp [PRes.pbind] at h
  | ok s3 t3 =>
    rw [hdsl] at h
    simp only [PRes.pbind] at h
    obtain ⟨hc, hf, he, hp⟩ := dsl_ok _ _ _ _ _ _ _ hdsl
    split at h
    next sip hb =>
      simp only [PRes.ok.injEq] at h
      obtain ⟨hs2, _⟩ := h
      rw [← hs2]
      exact ⟨hc, hf, he, hp⟩
    next proto udp_src hb =>
      by_cases hcond : proto = IPPROTO_UDP ∧ (udp_src = DHCP_CLIENT_PORT ∨ udp_src = DHCP_SERVER_PORT)
      · rw [if_pos hcond] at h
        simp only [PRes.ok.injEq] at h
        obtain ⟨hs2, _⟩ := h
        rw [← hs2]
        exact ⟨hc, hf, he, hp⟩
      · rw [if_neg hcond] at h
        simp only [PRes.ok.injEq] at h
        obtain ⟨hs2, _⟩ := h
        rw [← hs2]
        exact ⟨hc, hf, he, hp⟩
    next hb =>
      simp only [PRes.ok.injEq] at h
      obtain ⟨hs2, _⟩ := h
      rw [← hs2]
      exact ⟨hc, hf, he, hp⟩

/-- A successful `_process_packet_in` never commits, for any payload. -/
theorem process_commits (s : St) (dpid in_port : String) (data : ZVal)
    (txn txn2 : List TxnOp) (s2 : St)
    (h : _process_packet_in s dpid in_port data txn = PRes.ok s2 txn2) :
    s2.commits = s.commits := by
  cases data with
  | pkt pkt => exact (process_ok _ _ _ _ _ _ _ h).1
  | str v => rw [process_str_eq] at h; exact PRes.noConfusion h
  | nil => rw [process_nil_eq] at h; exact PRes.noConfusion h

/-- Replaying a packet whose source is already located at the observed
(switch, port) leaves the location directory and the flow-record table
untouched. -/
theorem process_unchanged (s : St) (dpid in_port : String) (pkt : PacketIn)
    (txn txn2 : List TxnOp) (s2 : St) (dc : String) (vm : Nat)
    (hpos : dget s.mac_to_position pkt.eth_src = some (dc, dpid, in_port, vm))
    (h : _process_packet_in s dpid in_port (ZVal.pkt pkt) txn = PRes.ok s2 txn2) :
    s2.mac_to_position = s.mac_to_position ∧ s2.mac_to_flows = s.mac_to_flows := by
  rw [process_pkt_eq] at h
  rw [dsl_unchanged s dpid in_port pkt.eth_src txn dc vm hpos] at h
  simp only [PRes.pbind] at h
  split at h
  next sip hb =>
    simp only [PRes.ok.injEq] at h
    obtain ⟨hs2, _⟩ := h
    rw [← hs2]
    exact ⟨rfl, rfl⟩
  next proto udp_src hb =>
    by_cases hcond : proto = IPPROTO_UDP ∧ (udp_src = DHCP_CLIENT_PORT ∨ udp_src = DHCP_SERVER_PORT)
    · rw [if_pos hcond] at h
      simp only [PRes.ok.injEq] at h
      obtain ⟨hs2, _⟩ := h
      rw [← hs2]
      exact ⟨rfl, rfl⟩
    · rw [if_neg hcond] at h
      simp only [PRes.ok.injEq] at h
      obtain ⟨hs2, _⟩ := h
      rw [← hs2]
      exact ⟨rfl, rfl⟩
  next hb =>
    simp only [PRes.ok.injEq] at h
    obtain ⟨hs2, _⟩ := h
    rw [← hs2]
    exact ⟨rfl, rfl⟩

/-- Booking one (prefix, switch) pair preserves every booked pair. -/
theorem recB_mono_update (mtf : List (FlowKey × List (String × Bool))) (kk : Nat)
    (dpid : String) (k : Nat) (d : String) (h : recB mtf k d = true) :
    recB (dset mtf (FlowKey.vpfx kk)
        (dset ((dget mtf (FlowKey.vpfx kk)).getD []) dpid true)) k d = true := by
  by_cases hk : FlowKey.vpfx k = FlowKey.vpfx kk
  · unfold recB at *
    rw [hk, dget_dset_self]
    simp only [Option.getD_some]
    by_cases hd : d = dpid
    · subst hd; rw [dget_dset_self]; rfl
    · rw [dget_dset_ne _ _ _ _ hd]
      rw [hk] at h
      exact h
  · unfold recB at *
    rw [dget_dset_ne _ _ _ _ hk]
    exact h

/-- The booked (prefix, switch) pair is booked after the update. -/
theorem recB_update_self (mtf : List (FlowKey × List (String × Bool))) (kk : Nat)
    (dpid : String) :
    recB (dset mtf (FlowKey.vpfx kk)
        (dset ((dget mtf (FlowKey.vpfx kk)).getD []) dpid true)) kk dpid = true := by
  unfold recB
  rw [dget_dset_self]
  simp only [Option.getD_some]
  rw [dget_dset_self]
  rfl

/-- Materialising an absent key books nothing new. -/
theorem recB_matz (mtf : List (FlowKey × List (String × Bool))) (K : FlowKey)
    (h : dget mtf K = none) (k : Nat) (d : String) :
    recB (dset mtf K []) k d = recB mtf k d := by
  by_cases hk : FlowKey.vpfx k = K
  · unfold recB
    rw [hk, dget_dset_self, h]
    simp [dget]
  · unfold recB
    rw [dget_dset_ne _ _ _ _ hk]

/-- Let-free unfolding of `set_nonlocal_flow` (definitional). -/
theorem snf_eq (s : St) (dpid : String) (mac mask : Nat) (port : String)
    (txn : List TxnOp) (fa : Bool) :
    set_nonlocal_flow s dpid mac mask port txn fa =
      (if (dget (mtfGet s (FlowKey.vpfx (recKey mac mask))).2 dpid).isSome = true then
        PRes.ok (mtfGet s (FlowKey.vpfx (recKey mac mask))).1 txn
      else if (mtfGet s (FlowKey.vpfx (recKey mac mask))).1.dpset.contains dpid = true then
        PRes.ok
          { emit (mtfGet s (FlowKey.vpfx (recKey mac mask))).1
              { dpid := dpid, priority := DATA_FWD,
                cmd := if fa = true then FlowCmd.add else FlowCmd.modifyStrict,
                mtch := OFMatch.ethDstMasked mac mask,
                actions := [FlowAction.output port] } with
            mac_to_flows :=
              dset (mtfGet s (FlowKey.vpfx (recKey mac mask))).1.mac_to_flows
                (FlowKey.vpfx (recKey mac mask))
                (dset ((dget (mtfGet s (FlowKey.vpfx (recKey mac mask))).1.mac_to_flows
                    (FlowKey.vpfx (recKey mac mask))).getD []) dpid true) }
          ((if (dget (mtfGet s (FlowKey.vpfx (recKey mac mask))).1.mac_to_flows
                (FlowKey.vpfx (recKey mac mask))).isNone = true then
              txn ++ [TxnOp.create (MAC_TO_FLOWS ++ "/" ++ toString (recKey mac mask)) ZVal.nil]
            else txn)
            ++ [TxnOp.create
                  (MAC_TO_FLOWS ++ "/" ++ toString (recKey mac mask) ++ "/" ++ dpid) ZVal.nil])
      else
        PRes.err PyErr.attributeError (mtfGet s (FlowKey.vpfx (recKey mac mask))).1) := rfl

/-- `set_nonlocal_flow` preserves the flow-record consistency of the
emission log and never books two masked rules with one (switch, match)
key: the redundancy guard of source lines 590-592 checks the flow-record
table before emitting and books the key right after emitting. -/
theorem snf_inv (s : St) (dpid : String) (mac mask : Nat) (port : String)
    (txn : List TxnOp) (fa : Bool)
    (hcov : maskedEmitsCovered s)
    (hpw : (s.emitted.filter isMaskedRule).Pairwise distinctKey) :
    maskedEmitsCovered (stOf (set_nonlocal_flow s dpid mac mask port txn fa))
    ∧ ((stOf (set_nonlocal_flow s dpid mac mask port txn fa)).emitted.filter
        isMaskedRule).Pairwise distinctKey := by
  rw [snf_eq]
  cases hmt : dget s.mac_to_flows (FlowKey.vpfx (recKey mac mask)) with
  | some m =>
    rw [mtfGet_pres _ _ _ hmt]
    simp only [emit]
    by_cases hskip : (dget m dpid).isSome = true
    · rw [if_pos hskip]
      exact ⟨hcov, hpw⟩
    · rw [if_neg hskip]
      by_cases hdp : s.dpset.contains dpid = true
      · rw [if_pos hdp]
        simp only [stOf, emit]
        constructor
        · intro fm hfm v msk hmtch
          simp only [List.mem_append, List.mem_singleton] at hfm
          unfold flowRecordedB
          cases hfm with
          | inl hold =>
            have hrec := hcov fm hold v msk hmtch
            unfold flowRecordedB at hrec
            exact recB_mono_update _ _ _ _ _ hrec
          | inr hnew =>
            subst hnew
            injection hmtch with hv hm2
            subst hv
            subst hm2
            exact recB_update_self _ _ _
        · rw [List.filter_append]
          have hmr : isMaskedRule
              { dpid := dpid, priority := DATA_FWD,
                cmd := if fa then FlowCmd.add else FlowCmd.modifyStrict,
                mtch := OFMatch.ethDstMasked mac mask,
                actions := [FlowAction.output port] } = true := rfl
          rw [List.pairwise_append]
          refine ⟨hpw, ?_, ?_⟩
          · simp [hmr]
          · intro a ha b hb
            simp only [List.filter_cons, hmr, if_true, List.filter_nil,
              List.mem_singleton] at hb
            subst hb
            simp only [distinctKey]
            intro hbad
            obtain ⟨hdpid2, hmtch2⟩ := hbad
            have hmem := List.mem_of_mem_filter ha
            have hrec := hcov a hmem mac mask hmtch2
            unfold flowRecordedB recB at hrec
            rw [hmt] at hrec
            simp only [Option.getD_some] at hrec
            rw [hdpid2] at hrec
            exact hskip hrec
      · rw [if_neg hdp]
        exact ⟨hcov, hpw⟩
  | none =>
    rw [mtfGet_abs _ _ hmt]
    have htrans : ∀ k d, flowRecordedB { s with
        mac_to_flows := dset s.mac_to_flows (FlowKey.vpfx (recKey mac mask)) [] } k d
        = flowRecordedB s k d := by
      intro k d
      unfold flowRecordedB
      exact recB_matz _ _ hmt k d
    have hcov2 : maskedEmitsCovered { s with
        mac_to_flows := dset s.mac_to_flows (FlowKey.vpfx (recKey mac mask)) [] } := by
      intro fm hfm v msk hmtch
      rw [htrans]
      exact hcov fm hfm v msk hmtch
    by_cases hskip : (dget ([] : List (String × Bool)) dpid).isSome = true
    · simp [dget] at hskip
    · rw [if_neg hskip]
      by_cases hdp : s.dpset.contains dpid = true
      · rw [if_pos hdp]
        simp only [stOf, emit]
        constructor
        · intro fm hfm v msk hmtch
          simp only [List.mem_append, List.mem_singleton] at hfm
          unfold flowRecordedB
          cases hfm with
          | inl hold =>
            have hrec := hcov2 fm hold v msk hmtch
            unfold flowRecordedB at hrec
            exact recB_mono_update _ _ _ _ _ hrec
          | inr hnew =>
            subst hnew
            injection hmtch with hv hm2
            subst hv
            subst hm2
            exact recB_update_self _ _ _
        · rw [List.filter_append]
          have hmr : isMaskedRule
              { dpid := dpid, priority := DATA_FWD,
                cmd := if fa then FlowCmd.add else FlowCmd.modifyStrict,
                mtch := OFMatch.ethDstMasked mac mask,
                actions := [FlowAction.output port] } = true := rfl
          rw [List.pairwise_append]
          refine ⟨hpw, ?_, ?_⟩
          · simp [hmr]
          · intro a ha b hb
            simp only [List.filter_cons, hmr, if_true, List.filter_nil,
              List.mem_singleton] at hb
            subst hb
            simp only [distinctKey]
            intro hbad
            obtain ⟨hdpid2, hmtch2⟩ := hbad
            have hmem := List.mem_of_mem_filter ha
            have hrec := hcov a hmem mac mask hmtch2
            unfold flowRecordedB recB at hrec
            rw [hmt] at hrec
            simp [dget] at hrec
      · rw [if_neg hdp]
        exact ⟨hcov2, hpw⟩

/-
Claim theorems.
-/

/-- Claim C3: decoding the switch prefix of a host locator built from a
switch prefix returns that switch prefix exactly, for all valid field
values. -/
theorem C3_codec_round_trip :
    ∀ (dcenter switch_id vm_id : Nat),
      dcenter < HOST_FIELD → switch_id < HOST_FIELD → vm_id < HOST_FIELD →
      get_swc_pfx (create_vm_vmac (create_swc_vmac dcenter switch_id) vm_id)
        = create_swc_vmac dcenter switch_id := by
  intro d sw h hd hsw hh
  simp only [get_swc_pfx, create_vm_vmac, create_swc_vmac, SWITCH_FIELD, HOST_FIELD] at *
  omega

/-- Witness for C3 at (1, 2, 3). -/
theorem C3_witness :
    1 < HOST_FIELD ∧ 2 < HOST_FIELD ∧ 3 < HOST_FIELD ∧
    get_swc_pfx (create_vm_vmac (create_swc_vmac 1 2) 3) = create_swc_vmac 1 2 :=
  ⟨by decide, by decide, by decide,
   C3_codec_round_trip 1 2 3 (by decide) (by decide) (by decide)⟩

/-- Claim C10: the `update_position` call of `handle_migration` (source
line 518) supplies five positional arguments to a method of six parameters
(mac, dcenter, dpid, port, vmac, txn), so every migration-handling call
raises TypeError before any flow is installed or any transaction
committed: (1) any five-argument call of `update_position` raises
TypeError; (2) a six-argument call is the only accepted shape; (3) every
call of `handle_migration` on a changed (switch, port) pair returns
TypeError with the controller state untouched — no rule emission, no
commit. -/
theorem C10_migration_type_error :
    (∀ (s : St) (txn : List TxnOp) (a1 a2 a3 a4 a5 : PyArg),
        update_position_call s [a1, a2, a3, a4, a5] txn = PRes.err PyErr.typeError s)
    ∧ (∀ (s : St) (txn : List TxnOp) (mac dcenter dpid port : String) (vmac : Nat),
        update_position_call s
          [PyArg.str mac, PyArg.str dcenter, PyArg.str dpid, PyArg.str port,
           PyArg.nat vmac, PyArg.txnArg] txn
          = PRes.ok (update_position s mac dcenter dpid port vmac txn).1
              (update_position s mac dcenter dpid port vmac txn).2)
    ∧ (∀ (s : St) (mac dpid_old port_old dpid_new port_new : String) (txn : List TxnOp),
        (dpid_old, port_old) ≠ (dpid_new, port_new) →
        handle_migration s mac dpid_old port_old dpid_new port_new txn =
          PRes.err PyErr.typeError s) := by
  refine ⟨?_, ?_, ?_⟩
  · intro s txn a1 a2 a3 a4 a5
    cases a1 <;> cases a2 <;> cases a3 <;> cases a4 <;> cases a5 <;> rfl
  · intro s txn mac dcenter dpid port vmac
    rfl
  · intro s mac dpid_old port_old dpid_new port_new txn h
    rw [handle_migration_eq, if_neg h]

/-- Witness for C10 at a concrete migration input. -/
theorem C10_witness :
    handle_migration initSt "aa" "s1" "p1" "s2" "p2" [] =
      PRes.err PyErr.typeError initSt :=
  C10_migration_type_error.2.2 initSt "aa" "s1" "p1" "s2" "p2" [] (by decide)

/-- Claim C1 (code bug): on a cross-switch migration the source raises
TypeError (five-argument `update_position` call) with the controller state
exactly as before the event — zero rule operations occur instead of the
N+1 operations the claim describes. -/
theorem C1_migration_raises :
    okOf migrationPre = true
    ∧ migrationRun = PRes.err PyErr.typeError (stOf migrationPre) := by
  constructor <;> decide

/-- Claim C4 (code bug): both hosts aa and bb, first sighted behind the
same switch s1, receive the same locator, because `dpid_to_topid` is
initialised to 1 at connect and never incremented. -/
theorem C4_duplicate_locator :
    okOf twoHostsRun = true
    ∧ (stOf twoHostsRun).mac_to_position =
        [("aa", ("1", "s1", "p1", create_vm_vmac (create_swc_vmac 1 1) (generate_vm_id 1))),
         ("bb", ("1", "s1", "p2", create_vm_vmac (create_swc_vmac 1 1) (generate_vm_id 1)))] := by
  constructor <;> decide

/-- Claim C6 (code bug): a duplicate connect event for the already-known
switch s1 raises NodeExistsError out of `zk.create(DPID_TO_ID/s1)` —
`self.dpid_to_id` is never populated, so the first-connect guard re-runs —
after having incremented `switch_count`: the event is neither a no-op nor
error-free. -/
theorem C6_duplicate_connect_raises :
    okOf dupConnectPre = true
    ∧ errOf dupConnectRun = some PyErr.nodeExistsError
    ∧ (stOf dupConnectRun).switch_count = (stOf dupConnectPre).switch_count + 1
    ∧ (stOf dupConnectRun).dpid_to_vmac = (stOf dupConnectPre).dpid_to_vmac := by
  refine ⟨?_, ?_, ?_, ?_⟩ <;> decide

/-- Claim C7 (counterexample): a disconnect event for the unknown switch
s9 is not a logged no-op — the handler raises KeyError looking up
`self.dpid_to_ip[s9]` (source line 380). -/
theorem C7_counterexample :
    handle_switch_leave initSt "s9" = PRes.err PyErr.keyError initSt := by decide

/-- Claim C7 (amended): a disconnect for an unknown switch mutates no
controller state and commits no transaction — the KeyError of source line
380 is raised before any deletion — but it is not recovered as a logged
no-op: the handler raises.  (The `dpset` removal in the carried state is
the ryu framework bookkeeping, not the handler.) -/
theorem C7_amended :
    ∀ (s : St) (dpid : String), dget s.dpid_to_ip dpid = none →
      handle_switch_leave s dpid =
        PRes.err PyErr.keyError { s with dpset := s.dpset.erase dpid } := by
  intro s dpid h
  unfold handle_switch_leave pyGet
  simp [h, PRes.pbind]

/-- Witness for the amended C7 at a concrete unknown switch. -/
theorem C7_amended_witness :
    handle_switch_leave initSt "s7" =
      PRes.err PyErr.keyError { initSt with dpset := initSt.dpset.erase "s7" } :=
  C7_amended initSt "s7" rfl

/-- Claim C8 (counterexample): after switch s1 connects and hosts aa and
bb are learned behind it, the emission log holds two rules with the same
(switch, match) key — the two local rules match the same duplicated
locator at s1 — so the engine does emit two rules with one
(switchId, matchKey). -/
theorem C8_counterexample :
    okOf twoHostsRun = true ∧ dupRuleKey (stOf twoHostsRun).emitted = true := by
  constructor <;> decide

/-- Claim C9 (counterexample): when switch s1 connects with a mesh port, a
gateway port "2" and a local port "3", the gateway port — not a local
port — receives a host-broadcast-out rule and appears in the output set of
the switch-broadcast-in rule. -/
theorem C9_counterexample :
    okOf gatewayRun = true
    ∧ (stOf gatewayRun).gateway = some "s1"
    ∧ (stOf gatewayRun).gateway_port = some "2"
    ∧ bcastOutRule "s1" "2" ∈ (stOf gatewayRun).emitted
    ∧ swBcastRule "s1" ["2", "3"] ∈ (stOf gatewayRun).emitted := by
  refine ⟨?_, ?_, ?_, ?_, ?_⟩ <;> decide

/-- Claim C5: an observation of an already-known host at its recorded
(switch, port) returns unchanged — no state mutation, no transaction
operation, no rule emission — even when other recorded fields (e.g. the
datacenter) differ from the current configuration; consequently replaying
the same packet-in twice leaves the location directory and the flow-record
state identical to applying it once. -/
theorem C5_unchanged_idempotent :
    (∀ (s : St) (dpid in_port mac : String) (txn : List TxnOp) (dc : String) (vm : Nat),
        dget s.mac_to_position mac = some (dc, dpid, in_port, vm) →
        _do_source_learning s dpid in_port mac txn = PRes.ok s txn)
    ∧ (∀ (s s1 s2 : St) (dpid in_port : String) (pkt : PacketIn),
        packet_in_handler s dpid in_port (ZVal.pkt pkt) = PRes.ok s1 () →
        packet_in_handler s1 dpid in_port (ZVal.pkt pkt) = PRes.ok s2 () →
        s2.mac_to_position = s1.mac_to_position ∧ s2.mac_to_flows = s1.mac_to_flows) := by
  constructor
  · intro s dpid in_port mac txn dc vm h
    exact dsl_unchanged s dpid in_port mac txn dc vm h
  · intro s s1 s2 dpid in_port pkt h1 h2
    unfold packet_in_handler at h1 h2
    cases hp1 : _process_packet_in s dpid in_port (ZVal.pkt pkt) [] with
    | err e s0 =>
      rw [hp1] at h1
      simp only [PRes.pbind] at h1
      exact PRes.noConfusion h1
    | ok s0 t0 =>
      rw [hp1] at h1
      simp only [PRes.pbind, PRes.ok.injEq] at h1
      obtain ⟨hs1, _⟩ := h1
      obtain ⟨_, _, _, dc, vm, hpos0⟩ := process_ok _ _ _ _ _ _ _ hp1
      have hpos1 : dget s1.mac_to_position pkt.eth_src = some (dc, dpid, in_port, vm) := by
        rw [← hs1]; exact hpos0
      cases hp2 : _process_packet_in s1 dpid in_port (ZVal.pkt pkt) [] with
      | err e s0a =>
        rw [hp2] at h2
        simp only [PRes.pbind] at h2
        exact PRes.noConfusion h2
      | ok s0a t0a =>
        rw [hp2] at h2
        simp only [PRes.pbind, PRes.ok.injEq] at h2
        obtain ⟨hs2, _⟩ := h2
        obtain ⟨hmp, hmf⟩ := process_unchanged _ _ _ _ _ _ _ _ _ hpos1 hp2
        constructor
        · rw [← hs2]; exact hmp
        · rw [← hs2]; exact hmf

/-- Witness for C5: host aa, already located at (s1, p1), observed there
again. -/
theorem C5_witness :
    dget (stOf migrationPre).mac_to_position "aa"
        = some ("1", "s1", "p1", create_vm_vmac (create_swc_vmac 1 1) (generate_vm_id 1))
    ∧ _do_source_learning (stOf migrationPre) "s1" "p1" "aa" [] =
        PRes.ok (stOf migrationPre) [] :=
  ⟨by decide,
   C5_unchanged_idempotent.1 (stOf migrationPre) "s1" "p1" "aa" [] "1"
     (create_vm_vmac (create_swc_vmac 1 1) (generate_vm_id 1)) (by decide)⟩

/-- Claim C8 (amended): for the masked unicast rules of
`set_nonlocal_flow` the claim holds — starting from any state whose
emitted masked rules are all booked in the flow-record table, no sequence
of `set_nonlocal_flow` operations ever emits two rules with the same
(switchId, matchKey): the table is checked before emission and the key is
booked at emission. -/
theorem C8_amended :
    ∀ (calls : List NLCall) (s : St),
      maskedEmitsCovered s →
      (s.emitted.filter isMaskedRule).Pairwise distinctKey →
      ((runNL s calls).emitted.filter isMaskedRule).Pairwise distinctKey := by
  intro calls
  induction calls with
  | nil =>
    intro s h1 h2
    exact h2
  | cons c cs ih =>
    intro s h1 h2
    have hinv := snf_inv s c.dpid c.mac c.mask c.port [] c.flow_add h1 h2
    cases hr : set_nonlocal_flow s c.dpid c.mac c.mask c.port [] c.flow_add with
    | ok s2 t =>
      rw [hr] at hinv
      have hstep : runNL s (c :: cs) = runNL s2 cs := by
        conv_lhs => rw [runNL]
        rw [hr]
      rw [hstep]
      exact ih s2 hinv.1 hinv.2
    | err e s2 =>
      rw [hr] at hinv
      have hstep : runNL s (c :: cs) = s2 := by
        conv_lhs => rw [runNL]
        rw [hr]
      rw [hstep]
      exact hinv.2

/-- Witness for the amended C8: two identical switch-to-switch rule
requests at s1 — the second is skipped by the flow-record guard. -/
theorem C8_amended_witness :
    maskedEmitsCovered nlDemoSt
    ∧ (nlDemoSt.emitted.filter isMaskedRule).Pairwise distinctKey
    ∧ ((runNL nlDemoSt
          [{ dpid := "s1", mac := 4295032832, mask := SWITCH_MASK, port := "1",
             flow_add := true },
           { dpid := "s1", mac := 4295032832, mask := SWITCH_MASK, port := "1",
             flow_add := true }]).emitted.filter isMaskedRule).Pairwise distinctKey :=
  ⟨by intro fm hfm v msk hmtch; simp [nlDemoSt, initSt] at hfm,
   by decide,
   C8_amended
     [{ dpid := "s1", mac := 4295032832, mask := SWITCH_MASK, port := "1",
        flow_add := true },
      { dpid := "s1", mac := 4295032832, mask := SWITCH_MASK, port := "1",
        flow_add := true }] nlDemoSt
     (by intro fm hfm v msk hmtch; simp [nlDemoSt, initSt] at hfm)
     (by decide)⟩

/-- zk.get on a missing znode raises NoNodeError. -/
theorem zk_get_none (s : St) (path : String)
    (h : dget s.store path = none) : zk_get s path = PRes.err PyErr.noNodeError s := by
  unfold zk_get; rw [h]

/-- zk.create on an existing znode raises NodeExistsError. -/
theorem zk_create_exists (s : St) (path : String) (data : ZVal)
    (h : (dget s.store path).isSome = true) :
    zk_create s path data = PRes.err PyErr.nodeExistsError s := by
  unfold zk_create; rw [if_pos h]

/-- zk.create on a fresh znode writes it. -/
theorem zk_create_fresh (s : St) (path : String) (data : ZVal)
    (h : ¬ (dget s.store path).isSome = true) :
    zk_create s path data = PRes.ok { s with store := dset s.store path data } () := by
  unfold zk_create; rw [if_neg h]

/-- Python int() on a parsable string. -/
theorem pyInt_some (s : St) (v : String) (n : Nat)
    (h : parseNat v = some n) : pyInt s v = PRes.ok s n := by
  unfold pyInt; rw [h]

/-- Python int() on an unparsable string raises ValueError. -/
theorem pyInt_none (s : St) (v : String)
    (h : parseNat v = none) : pyInt s v = PRes.err PyErr.valueError s := by
  unfold pyInt; rw [h]

/-- A successful `set_nonlocal_flow` appends at most one rule to the
emission log, always at DATA_FWD priority. -/
theorem snf_emitted (s : St) (dpid : String) (mac mask : Nat) (port : String)
    (txn : List TxnOp) (fa : Bool) (s2 : St) (txn2 : List TxnOp)
    (h : set_nonlocal_flow s dpid mac mask port txn fa = PRes.ok s2 txn2) :
    ∃ d, s2.emitted = s.emitted ++ d ∧ ∀ fm ∈ d, fm.priority = DATA_FWD := by
  rw [snf_eq] at h
  cases hmt : dget s.mac_to_flows (FlowKey.vpfx (recKey mac mask)) with
  | some m =>
    rw [mtfGet_pres _ _ _ hmt] at h
    by_cases hskip : (dget m dpid).isSome = true
    · rw [if_pos hskip] at h
      simp only [PRes.ok.injEq] at h
      obtain ⟨hs2, _⟩ := h
      exact ⟨[], by rw [← hs2]; simp, by simp⟩
    · rw [if_neg hskip] at h
      by_cases hdp : s.dpset.contains dpid = true
      · rw [if_pos hdp] at h
        simp only [PRes.ok.injEq] at h
        obtain ⟨hs2, _⟩ := h
        refine ⟨[{ dpid := dpid, priority := DATA_FWD,
                   cmd := if fa = true then FlowCmd.add else FlowCmd.modifyStrict,
                   mtch := OFMatch.ethDstMasked mac mask,
                   actions := [FlowAction.output port] }], ?_, ?_⟩
        · rw [← hs2]
          simp [emit]
        · intro fm hfm
          simp at hfm
          rw [hfm]
      · rw [if_neg hdp] at h
        exact PRes.noConfusion h
  | none =>
    rw [mtfGet_abs _ _ hmt] at h
    have hskip : ¬ ((dget ([] : List (String × Bool)) dpid).isSome = true) := by
      simp [dget]
    rw [if_neg hskip] at h
    by_cases hdp : s.dpset.contains dpid = true
    · rw [if_pos hdp] at h
      simp only [PRes.ok.injEq] at h
      obtain ⟨hs2, _⟩ := h
      refine ⟨[{ dpid := dpid, priority := DATA_FWD,
                 cmd := if fa = true then FlowCmd.add else FlowCmd.modifyStrict,
                 mtch := OFMatch.ethDstMasked mac mask,
                 actions := [FlowAction.output port] }], ?_, ?_⟩
      · rw [← hs2]
        simp [emit]
      · intro fm hfm
        simp at hfm
        rw [hfm]
    · rw [if_neg hdp] at h
      exact PRes.noConfusion h

/-- One-step unfolding of the failover replay loop. -/
theorem floop_cons (s : St) (znode : String) (rest : List String) :
    failoverLoop s (znode :: rest) =
      ((zk_get s (ZK_FAILOVER ++ "/" ++ znode)).pbind fun s data =>
       match str_to_tuple znode with
       | [dpid, in_port] =>
         (_process_packet_in s dpid in_port data []).pbind fun s txn =>
         PRes.ok (addCommit s (txn ++ [TxnOp.delete (ZK_FAILOVER ++ "/" ++ znode)])) ()
       | _ => PRes.err .valueError s).pbind fun s _ =>
      failoverLoop s rest := by
  conv_lhs => rw [failoverLoop]

/-- A successful failover replay only emits DATA_FWD rules. -/
theorem floop_emitted : ∀ (nodes : List String) (s s2 : St),
    failoverLoop s nodes = PRes.ok s2 () →
    ∃ d, s2.emitted = s.emitted ++ d ∧ ∀ fm ∈ d, fm.priority = DATA_FWD := by
  intro nodes
  induction nodes with
  | nil =>
    intro s s2 h
    rw [floop_nil] at h
    simp only [PRes.ok.injEq] at h
    obtain ⟨hs, _⟩ := h
    exact ⟨[], by rw [← hs]; simp, by simp⟩
  | cons znode rest ih =>
    intro s s2 h
    rw [floop_cons] at h
    cases hd : dget s.store (ZK_FAILOVER ++ "/" ++ znode) with
    | none =>
      rw [zk_get_none _ _ hd] at h
      simp only [PRes.pbind] at h
      exact PRes.noConfusion h
    | some data =>
      rw [zk_get_some _ _ _ hd] at h
      simp only [PRes.pbind] at h
      cases hparse : str_to_tuple znode with
      | nil =>
        rw [hparse] at h
        exact PRes.noConfusion (show PRes.err PyErr.valueError s = PRes.ok s2 () from h)
      | cons a t1 =>
        cases t1 with
        | nil =>
          rw [hparse] at h
          exact PRes.noConfusion (show PRes.err PyErr.valueError s = PRes.ok s2 () from h)
        | cons b t2 =>
          cases t2 with
          | cons c3 t3 =>
            rw [hparse] at h
            exact PRes.noConfusion (show PRes.err PyErr.valueError s = PRes.ok s2 () from h)
          | nil =>
            rw [hparse] at h
            have h2 : ((_process_packet_in s a b data []).pbind fun s txn =>
                PRes.ok (addCommit s
                  (txn ++ [TxnOp.delete (ZK_FAILOVER ++ "/" ++ znode)])) ()).pbind
                (fun s _ => failoverLoop s rest) = PRes.ok s2 () := h
            cases hp : _process_packet_in s a b data [] with
            | err e s4 =>
              rw [hp] at h2
              simp only [PRes.pbind] at h2
              exact PRes.noConfusion h2
            | ok s4 t4 =>
              rw [hp] at h2
              simp only [PRes.pbind] at h2
              obtain ⟨d2, he2, hd2⟩ := ih _ _ h2
              cases data with
              | str v => rw [process_str_eq] at hp; exact PRes.noConfusion hp
              | nil => rw [process_nil_eq] at hp; exact PRes.noConfusion hp
              | pkt pkt =>
                obtain ⟨_, _, ⟨d1, he1, hd1⟩, _⟩ := process_ok _ _ _ _ _ _ _ hp
                refine ⟨d1 ++ d2, ?_, ?_⟩
                · rw [he2]
                  show s4.emitted ++ d2 = _
                  rw [he1, List.append_assoc]
                · intro fm hfm
                  rcases List.mem_append.mp hfm with h1 | h1
                  · exact hd1 _ h1
                  · exact hd2 _ h1

/-- A successful `_do_failover` only emits DATA_FWD rules. -/
theorem dofail_emitted (s s2 : St) (h : _do_failover s = PRes.ok s2 ()) :
    ∃ d, s2.emitted = s.emitted ++ d ∧ ∀ fm ∈ d, fm.priority = DATA_FWD := by
  unfold _do_failover at h
  exact floop_emitted _ _ _ h

/-- One emission appends one rule to the log. -/
theorem emit_emitted (s : St) (fm : FlowMod) : (emit s fm).emitted = s.emitted ++ [fm] := rfl

/-- Emission log of the broadcast-out fold of the connect handler. -/
theorem foldl_emit_emitted (dpid : String) (nm : List String) : ∀ (s : St),
    (nm.foldl (fun s port_no => emit s (bcastOutRule dpid port_no)) s).emitted
      = s.emitted ++ nm.map (bcastOutRule dpid) := by
  induction nm with
  | nil => intro s; simp
  | cons a t ih =>
    intro s
    rw [List.foldl_cons, ih]
    simp [emit]

/-- Emission log of the post-port-loop rule block of the connect
handler. -/
theorem postRules_emitted (s3 : St) (dpid : String) (nm : List String) :
    (postRules s3 dpid nm).emitted =
      s3.emitted ++ ([arpRule dpid, dhcpRule dpid DHCP_CLIENT_PORT,
        dhcpRule dpid DHCP_SERVER_PORT]
        ++ nm.map (bcastOutRule dpid)
        ++ [swBcastRule dpid nm, dropRule dpid]) := by
  unfold postRules
  rw [emit_emitted, emit_emitted, foldl_emit_emitted, emit_emitted, emit_emitted, emit_emitted]
  simp

/-- DATA_FWD rules are not broadcast-out rules. -/
theorem hbp_of_data_fwd (l : List FlowMod) (h : ∀ fm ∈ l, fm.priority = DATA_FWD) :
    l.filterMap hostBcastPort = [] := by
  rw [List.filterMap_eq_nil_iff]
  intro a ha
  simp [hostBcastPort, h a ha, DATA_FWD, HOST_BCAST]

/-- DATA_FWD rules are not broadcast-in rules. -/
theorem sbf_of_data_fwd (l : List FlowMod) (h : ∀ fm ∈ l, fm.priority = DATA_FWD) :
    l.filter (fun fm => decide (fm.priority = SWITCH_BCAST)) = [] := by
  rw [List.filter_eq_nil_iff]
  intro a ha
  simp [h a ha, DATA_FWD, SWITCH_BCAST]

/-- The broadcast-out block contributes exactly its port list to the
broadcast-out extraction. -/
theorem hbp_map_bout (dpid : String) (nm : List String) :
    (nm.map (bcastOutRule dpid)).filterMap hostBcastPort = nm := by
  induction nm with
  | nil => simp
  | cons a t ih => simp [hostBcastPort, bcastOutRule, ih]

/-- The broadcast-out block contributes no broadcast-in rule. -/
theorem sbf_map_bout (dpid : String) (nm : List String) :
    (nm.map (bcastOutRule dpid)).filter (fun fm => decide (fm.priority = SWITCH_BCAST)) = [] := by
  induction nm with
  | nil => simp
  | cons a t ih => simp [bcastOutRule, ih, HOST_BCAST, SWITCH_BCAST]

/-- The port-classification loop appends exactly the non-mesh,
non-DHCP-uplink port numbers (gateway ports included) to the accumulated
list, and emits only DATA_FWD rules (from the tunnel set-up of the mesh
and gateway branches). -/
theorem portLoop_spec (dpid ip : String) :
    ∀ (ports : List EvPort) (s : St) (nm : List String) (pip : Option String)
      (s2 : St) (nm2 : List String) (pip2 : Option String),
      portLoop s dpid ip ports nm pip = PRes.ok s2 (nm2, pip2) →
      nm2 = nm ++ nonMeshFilter ports
      ∧ ∃ d, s2.emitted = s.emitted ++ d ∧ ∀ fm ∈ d, fm.priority = DATA_FWD := by
  intro ports
  induction ports with
  | nil =>
    intro s nm pip s2 nm2 pip2 h
    have h2 : PRes.ok s ((nm, pip)) = PRes.ok s2 (nm2, pip2) := h
    simp only [PRes.ok.injEq, Prod.mk.injEq] at h2
    obtain ⟨hs, hnm, _⟩ := h2
    constructor
    · rw [← hnm]
      simp [nonMeshFilter]
    · exact ⟨[], by rw [← hs]; simp, by simp⟩
  | cons p rest ih =>
    intro s nm pip s2 nm2 pip2 h
    simp only [portLoop] at h
    by_cases hmesh : (strStartsWith p.name "obr" && strContainsChar p.name '_') = true
    · rw [if_pos hmesh] at h
      have hnmf : nonMeshFilter (p :: rest) = nonMeshFilter rest := by
        simp only [Bool.and_eq_true] at hmesh
        simp [nonMeshFilter, List.filterMap_cons, isMeshName, hmesh]
      cases hsplit : strSplit p.name '_' with
      | nil =>
        rw [hsplit] at h
        exact PRes.noConfusion (show PRes.err PyErr.valueError s = PRes.ok s2 (nm2, pip2) from h)
      | cons a t1 =>
        cases t1 with
        | nil =>
          rw [hsplit] at h
          exact PRes.noConfusion (show PRes.err PyErr.valueError s = PRes.ok s2 (nm2, pip2) from h)
        | cons b t2 =>
          cases t2 with
          | cons c3 t3 =>
            rw [hsplit] at h
            exact PRes.noConfusion (show PRes.err PyErr.valueError s = PRes.ok s2 (nm2, pip2) from h)
          | nil =>
            rw [hsplit] at h
            have h2 : (match dget s.ip_to_dpid (s.ip_pfx ++ "." ++ strReplaceChar b '-' '.') with
                | some peer_dpid =>
                  (pyGet (meshConnSt s dpid (s.ip_pfx ++ "." ++ strReplaceChar b '-' '.') p.port_no)
                      s.dpid_to_vmac peer_dpid).pbind fun s9 peer_vmac =>
                    (set_nonlocal_flow s9 dpid peer_vmac SWITCH_MASK p.port_no [] true).pbind fun s8 txn =>
                    portLoop (addCommit s8 txn) dpid ip rest nm
                      (some (s.ip_pfx ++ "." ++ strReplaceChar b '-' '.'))
                | none =>
                  portLoop (meshConnSt s dpid (s.ip_pfx ++ "." ++ strReplaceChar b '-' '.') p.port_no)
                    dpid ip rest nm (some (s.ip_pfx ++ "." ++ strReplaceChar b '-' '.')))
                = PRes.ok s2 (nm2, pip2) := h
            cases hpeer : dget s.ip_to_dpid (s.ip_pfx ++ "." ++ strReplaceChar b '-' '.') with
            | none =>
              rw [hpeer] at h2
              have h3 : portLoop (meshConnSt s dpid (s.ip_pfx ++ "." ++ strReplaceChar b '-' '.') p.port_no)
                  dpid ip rest nm (some (s.ip_pfx ++ "." ++ strReplaceChar b '-' '.'))
                  = PRes.ok s2 (nm2, pip2) := h2
              obtain ⟨hnm, d, hd, hw⟩ := ih _ _ _ _ _ _ h3
              refine ⟨by rw [hnm, hnmf], d, ?_, hw⟩
              rw [hd]
              rfl
            | some peer_dpid0 =>
              rw [hpeer] at h2
              have h3 : ((pyGet (meshConnSt s dpid (s.ip_pfx ++ "." ++ strReplaceChar b '-' '.') p.port_no)
                  s.dpid_to_vmac peer_dpid0).pbind fun s9 peer_vmac =>
                    (set_nonlocal_flow s9 dpid peer_vmac SWITCH_MASK p.port_no [] true).pbind fun s8 txn =>
                    portLoop (addCommit s8 txn) dpid ip rest nm
                      (some (s.ip_pfx ++ "." ++ strReplaceChar b '-' '.')))
                  = PRes.ok s2 (nm2, pip2) := h2
              cases hvm : dget s.dpid_to_vmac peer_dpid0 with
              | none =>
                rw [pyGet_none _ _ _ hvm] at h3
                simp only [PRes.pbind] at h3
                exact PRes.noConfusion h3
              | some pvm =>
                rw [pyGet_some _ _ _ _ hvm] at h3
                simp only [PRes.pbind] at h3
                cases hsnf : set_nonlocal_flow
                    (meshConnSt s dpid (s.ip_pfx ++ "." ++ strReplaceChar b '-' '.') p.port_no)
                    dpid pvm SWITCH_MASK p.port_no [] true with
                | err e s4 =>
                  rw [hsnf] at h3
                  simp only [PRes.pbind] at h3
                  exact PRes.noConfusion h3
                | ok s4 t4 =>
                  rw [hsnf] at h3
                  simp only [PRes.pbind] at h3
                  obtain ⟨d1, hd1, hw1⟩ := snf_emitted _ _ _ _ _ _ _ _ _ hsnf
                  obtain ⟨hnm, d2, hd2, hw2⟩ := ih _ _ _ _ _ _ h3
                  refine ⟨by rw [hnm, hnmf], d1 ++ d2, ?_, ?_⟩
                  · rw [hd2]
                    show s4.emitted ++ d2 = _
                    rw [hd1]
                    show s.emitted ++ d1 ++ d2 = s.emitted ++ (d1 ++ d2)
                    rw [List.append_assoc]
                  · intro fm hfm
                    rcases List.mem_append.mp hfm with hx | hx
                    · exact hw1 _ hx
                    · exact hw2 _ hx
    · rw [if_neg hmesh] at h
      by_cases hdhcp : p.name = "eth_dhcpp"
      · rw [if_pos hdhcp] at h
        have hnmf : nonMeshFilter (p :: rest) = nonMeshFilter rest := by
          simp only [Bool.and_eq_true] at hmesh
          simp [nonMeshFilter, List.filterMap_cons, isMeshName, hmesh, hdhcp]
        obtain ⟨hnm, d, hd, hw⟩ := ih _ _ _ _ _ _ h
        refine ⟨by rw [hnm, hnmf], d, ?_, hw⟩
        rw [hd]
        rfl
      · rw [if_neg hdhcp] at h
        by_cases hgate : strStartsWith p.name "gate" = true
        · rw [if_pos hgate] at h
          have hnmf : nonMeshFilter (p :: rest) = p.port_no :: nonMeshFilter rest := by
            simp only [Bool.and_eq_true] at hmesh
            simp [nonMeshFilter, List.filterMap_cons, isMeshName, hmesh, hdhcp]
          cases hsplit : strSplit p.name '_' with
          | nil =>
            rw [hsplit] at h
            exact PRes.noConfusion (show PRes.err PyErr.valueError s = PRes.ok s2 (nm2, pip2) from h)
          | cons a t1 =>
            cases t1 with
            | nil =>
              rw [hsplit] at h
              exact PRes.noConfusion (show PRes.err PyErr.valueError s = PRes.ok s2 (nm2, pip2) from h)
            | cons b t2 =>
              cases t2 with
              | nil =>
                rw [hsplit] at h
                exact PRes.noConfusion (show PRes.err PyErr.valueError s = PRes.ok s2 (nm2, pip2) from h)
              | cons c3 t3 =>
                cases t3 with
                | cons e4 t4 =>
                  rw [hsplit] at h
                  exact PRes.noConfusion (show PRes.err PyErr.valueError s = PRes.ok s2 (nm2, pip2) from h)
                | nil =>
                  rw [hsplit] at h
                  cases pip with
                  | none =>
                    exact PRes.noConfusion
                      (show PRes.err PyErr.nameError
                          (gateConnSt s dpid ((if b = "1" then "135.207" else "135.197") ++ "." ++ c3) p.port_no)
                        = PRes.ok s2 (nm2, pip2) from h)
                  | some pip0 =>
                    have h3 : ((set_nonlocal_flow
                        (gateConnSt s dpid ((if b = "1" then "135.207" else "135.197") ++ "." ++ c3) p.port_no)
                        dpid (create_dc_vmac b) DCENTER_MASK p.port_no [] true).pbind fun s9 txn =>
                          portLoop (addCommit s9 txn) dpid ip rest (nm ++ [p.port_no]) (some pip0))
                        = PRes.ok s2 (nm2, pip2) := h
                    cases hsnf : set_nonlocal_flow
                        (gateConnSt s dpid ((if b = "1" then "135.207" else "135.197") ++ "." ++ c3) p.port_no)
                        dpid (create_dc_vmac b) DCENTER_MASK p.port_no [] true with
                    | err e s4 =>
                      rw [hsnf] at h3
                      simp only [PRes.pbind] at h3
                      exact PRes.noConfusion h3
                    | ok s4 t4 =>
                      rw [hsnf] at h3
                      simp only [PRes.pbind] at h3
                      obtain ⟨d1, hd1, hw1⟩ := snf_emitted _ _ _ _ _ _ _ _ _ hsnf
                      obtain ⟨hnm, d2, hd2, hw2⟩ := ih _ _ _ _ _ _ h3
                      refine ⟨?_, d1 ++ d2, ?_, ?_⟩
                      · rw [hnm, hnmf]
                        simp
                      · rw [hd2]
                        show s4.emitted ++ d2 = _
                        rw [hd1]
                        show s.emitted ++ d1 ++ d2 = s.emitted ++ (d1 ++ d2)
                        rw [List.append_assoc]
                      · intro fm hfm
                        rcases List.mem_append.mp hfm with hx | hx
                        · exact hw1 _ hx
                        · exact hw2 _ hx
        · rw [if_neg hgate] at h
          have hnmf : nonMeshFilter (p :: rest) = p.port_no :: nonMeshFilter rest := by
            simp only [Bool.and_eq_true] at hmesh
            simp [nonMeshFilter, List.filterMap_cons, isMeshName, hmesh, hdhcp]
          obtain ⟨hnm, d, hd, hw⟩ := ih _ _ _ _ _ _ h
          refine ⟨?_, d, hd, hw⟩
          rw [hnm, hnmf]
          simp

/-- From the emission-log shape the connect handler produces, read off the
broadcast-rule properties: the broadcast-out rules are exactly one per
non-mesh port, the broadcast-in rule is unique with exactly the non-mesh
ports as outputs, and no mesh port is in the broadcast-in output set. -/
theorem bcast_shape (dpid : String) (ports : List EvPort) (em : List FlowMod)
    (d dt : List FlowMod)
    (hnd : (ports.map EvPort.port_no).Nodup)
    (he : em = d ++ ([arpRule dpid, dhcpRule dpid DHCP_CLIENT_PORT,
        dhcpRule dpid DHCP_SERVER_PORT] ++ (nonMeshFilter ports).map (bcastOutRule dpid)
        ++ [swBcastRule dpid (nonMeshFilter ports), dropRule dpid]) ++ dt)
    (hw : ∀ fm ∈ d, fm.priority = DATA_FWD)
    (hwt : ∀ fm ∈ dt, fm.priority = DATA_FWD) :
    em.filterMap hostBcastPort = nonMeshFilter ports
    ∧ em.filter (fun fm => decide (fm.priority = SWITCH_BCAST))
        = [swBcastRule dpid (nonMeshFilter ports)]
    ∧ ∀ p ∈ ports, isMeshName p.name = true →
        FlowAction.output p.port_no ∉ (swBcastRule dpid (nonMeshFilter ports)).actions := by
  refine ⟨?_, ?_, ?_⟩
  · rw [he, List.filterMap_append, List.filterMap_append,
      hbp_of_data_fwd d hw, hbp_of_data_fwd dt hwt,
      List.filterMap_append, List.filterMap_append, hbp_map_bout]
    simp [hostBcastPort, arpRule, dhcpRule, dropRule, swBcastRule, PRIO_ARP, PRIO_DHCP,
      PRIO_NORMAL, HOST_BCAST, SWITCH_BCAST]
  · rw [he, List.filter_append, List.filter_append,
      sbf_of_data_fwd d hw, sbf_of_data_fwd dt hwt,
      List.filter_append, List.filter_append, sbf_map_bout]
    simp [arpRule, dhcpRule, dropRule, swBcastRule, PRIO_ARP, PRIO_DHCP, PRIO_NORMAL,
      SWITCH_BCAST]
  · intro p hp hpm
    show FlowAction.output p.port_no ∉ (nonMeshFilter ports).map FlowAction.output
    intro hmem
    rw [List.mem_map] at hmem
    obtain ⟨x, hx, hfx⟩ := hmem
    injection hfx with hxe
    subst hxe
    unfold nonMeshFilter at hx
    rw [List.mem_filterMap] at hx
    obtain ⟨q, hq, hfq⟩ := hx
    by_cases h1 : isMeshName q.name = true
    · rw [if_pos h1] at hfq
      exact Option.noConfusion hfq
    · rw [if_neg h1] at hfq
      by_cases h2 : q.name = "eth_dhcpp"
      · rw [if_pos h2] at hfq
        exact Option.noConfusion hfq
      · rw [if_neg h2] at hfq
        simp only [Option.some.injEq] at hfq
        have hqp : q = p := List.inj_on_of_nodup_map hnd hq hp hfq
        rw [hqp] at h1
        exact h1 hpm

/-- The connect handler after its port loop: on success the emission log
consists of DATA_FWD emissions of the loop, the fixed rule block at the
non-mesh port list the loop computed, and DATA_FWD emissions of a possible
failover replay — from which the broadcast-rule properties follow. -/
theorem enter_tail (sMid : St) (dpid ip : String) (ports : List EvPort) (s2 : St)
    (h : ((portLoop sMid dpid ip ports [] none).pbind fun s nmp =>
        match nmp with
        | (non_mesh_ports, _) =>
          if (postRules s dpid non_mesh_ports).switch_count
              = (postRules s dpid non_mesh_ports).num_switches
          then _do_failover (postRules s dpid non_mesh_ports)
          else PRes.ok (postRules s dpid non_mesh_ports) ()) = PRes.ok s2 ())
    (hem : sMid.emitted = [])
    (hnd : (ports.map EvPort.port_no).Nodup) :
    s2.emitted.filterMap hostBcastPort = nonMeshFilter ports
    ∧ s2.emitted.filter (fun fm => decide (fm.priority = SWITCH_BCAST))
        = [swBcastRule dpid (nonMeshFilter ports)]
    ∧ ∀ p ∈ ports, isMeshName p.name = true →
        FlowAction.output p.port_no ∉ (swBcastRule dpid (nonMeshFilter ports)).actions := by
  cases hpl : portLoop sMid dpid ip ports [] none with
  | err e s3 =>
    rw [hpl] at h
    simp only [PRes.pbind] at h
    exact PRes.noConfusion h
  | ok s3 nmp =>
    obtain ⟨nm2, pip2⟩ := nmp
    rw [hpl] at h
    simp only [PRes.pbind] at h
    obtain ⟨hnm, d, hd, hw⟩ := portLoop_spec dpid ip ports sMid [] none s3 nm2 pip2 hpl
    rw [List.nil_append] at hnm
    subst hnm
    have h2 : (if (postRules s3 dpid (nonMeshFilter ports)).switch_count
        = (postRules s3 dpid (nonMeshFilter ports)).num_switches
        then _do_failover (postRules s3 dpid (nonMeshFilter ports))
        else PRes.ok (postRules s3 dpid (nonMeshFilter ports)) ()) = PRes.ok s2 () := h
    have hs3 : s3.emitted = d := by
      rw [hd, hem]
      simp
    by_cases hcnt : (postRules s3 dpid (nonMeshFilter ports)).switch_count
        = (postRules s3 dpid (nonMeshFilter ports)).num_switches
    · rw [if_pos hcnt] at h2
      obtain ⟨dt, hdt, hwt⟩ := dofail_emitted _ _ h2
      refine bcast_shape dpid ports s2.emitted d dt hnd ?_ hw hwt
      rw [hdt, postRules_emitted, hs3]
    · rw [if_neg hcnt] at h2
      simp only [PRes.ok.injEq] at h2
      obtain ⟨hs2, _⟩ := h2
      refine bcast_shape dpid ports s2.emitted d [] hnd ?_ hw (by simp)
      rw [← hs2, postRules_emitted, hs3]
      simp

/-- Defeq decomposition of the connect handler: the DPID_TO_ID
registration step followed by `enterStage2`. -/
theorem hse_decomp (s : St) (dpid ip : String) (ports : List EvPort) :
    handle_switch_enter s dpid ip ports =
      ((if (dget s.dpid_to_id dpid).isNone = true then
          (zk_create { s with dpset := dpid :: s.dpset, switch_count := s.switch_count + 1 }
              (DPID_TO_ID ++ "/" ++ dpid) ZVal.nil).pbind fun s9 _ =>
            PRes.ok { s9 with dpid_to_topid := dset s9.dpid_to_topid dpid 1 } ()
        else PRes.ok { s with dpset := dpid :: s.dpset, switch_count := s.switch_count + 1 } ()).pbind
        fun s9 _ => enterStage2 s9 dpid ip ports) := rfl

/-- Broadcast-rule properties of a successful `enterStage2` run from a
state with an empty emission log. -/
theorem stage2_spec (s : St) (dpid ip : String) (ports : List EvPort) (s2 : St)
    (h : enterStage2 s dpid ip ports = PRes.ok s2 ())
    (hem : s.emitted = [])
    (hnd : (ports.map EvPort.port_no).Nodup) :
    s2.emitted.filterMap hostBcastPort = nonMeshFilter ports
    ∧ s2.emitted.filter (fun fm => decide (fm.priority = SWITCH_BCAST))
        = [swBcastRule dpid (nonMeshFilter ports)]
    ∧ ∀ p ∈ ports, isMeshName p.name = true →
        FlowAction.output p.port_no ∉ (swBcastRule dpid (nonMeshFilter ports)).actions := by
  unfold enterStage2 at h
  by_cases hvm : (dget s.dpid_to_vmac dpid).isNone = true
  · rw [if_pos hvm] at h
    cases hdc : parseNat s.dcenter with
    | none =>
      rw [pyInt_none _ _ hdc] at h
      simp only [PRes.pbind] at h
      exact PRes.noConfusion h
    | some dcN =>
      rw [pyInt_some _ _ _ hdc] at h
      simp only [PRes.pbind] at h
      by_cases hzc2 : (dget s.store (DPID_TO_VMAC ++ "/" ++ dpid)).isSome = true
      · rw [zk_create_exists
            { s with dpid_to_vmac := dset s.dpid_to_vmac dpid (create_swc_vmac dcN s.switch_count) }
            _ _ hzc2] at h
        simp only [PRes.pbind] at h
        exact PRes.noConfusion h
      · rw [zk_create_fresh
            { s with dpid_to_vmac := dset s.dpid_to_vmac dpid (create_swc_vmac dcN s.switch_count) }
            _ _ hzc2] at h
        simp only [PRes.pbind] at h
        exact enter_tail _ dpid ip ports s2 h hem hnd
  · rw [if_neg hvm] at h
    simp only [PRes.pbind] at h
    exact enter_tail _ dpid ip ports s2 h hem hnd

/-- Claim C9 (amended): at switch connect the code installs one
broadcast-out rule per non-mesh, non-DHCP-uplink port (gateway ports
included) at host-broadcast priority, and exactly one broadcast-in rule at
the lower switch-broadcast priority whose output set is exactly those
ports; mesh (tunnel) ports are never in the broadcast-in output set. -/
theorem C9_amended (s : St) (dpid ip : String) (ports : List EvPort) (s2 : St)
    (hem : s.emitted = [])
    (hnd : (ports.map EvPort.port_no).Nodup)
    (h : handle_switch_enter s dpid ip ports = PRes.ok s2 ()) :
    s2.emitted.filterMap hostBcastPort = nonMeshFilter ports
    ∧ s2.emitted.filter (fun fm => decide (fm.priority = SWITCH_BCAST))
        = [swBcastRule dpid (nonMeshFilter ports)]
    ∧ ∀ p ∈ ports, isMeshName p.name = true →
        FlowAction.output p.port_no ∉ (swBcastRule dpid (nonMeshFilter ports)).actions := by
  rw [hse_decomp] at h
  by_cases hid : (dget s.dpid_to_id dpid).isNone = true
  · rw [if_pos hid] at h
    by_cases hzc : (dget s.store (DPID_TO_ID ++ "/" ++ dpid)).isSome = true
    · rw [zk_create_exists { s with dpset := dpid :: s.dpset, switch_count := s.switch_count + 1 }
          _ _ hzc] at h
      simp only [PRes.pbind] at h
      exact PRes.noConfusion h
    · rw [zk_create_fresh { s with dpset := dpid :: s.dpset, switch_count := s.switch_count + 1 }
          _ _ hzc] at h
      simp only [PRes.pbind] at h
      exact stage2_spec _ dpid ip ports s2 h hem hnd
  · rw [if_neg hid] at h
    simp only [PRes.pbind] at h
    exact stage2_spec _ dpid ip ports s2 h hem hnd

/-- Witness for the amended C9: a fresh switch s1 connecting with one
local port and one mesh (tunnel) port. -/
theorem C9_amended_witness :
    (stOf (handle_switch_enter initSt "s1" "10.0.0.1"
        [{ port_no := "1", name := "eth0" }, { port_no := "2", name := "obr1_0-3" }])).emitted.filterMap
        hostBcastPort
      = nonMeshFilter [{ port_no := "1", name := "eth0" }, { port_no := "2", name := "obr1_0-3" }]
    ∧ (stOf (handle_switch_enter initSt "s1" "10.0.0.1"
        [{ port_no := "1", name := "eth0" }, { port_no := "2", name := "obr1_0-3" }])).emitted.filter
        (fun fm => decide (fm.priority = SWITCH_BCAST))
      = [swBcastRule "s1"
          (nonMeshFilter [{ port_no := "1", name := "eth0" }, { port_no := "2", name := "obr1_0-3" }])]
    ∧ ∀ p ∈ [({ port_no := "1", name := "eth0" } : EvPort),
             { port_no := "2", name := "obr1_0-3" }], isMeshName p.name = true →
        FlowAction.output p.port_no ∉ (swBcastRule "s1"
          (nonMeshFilter [{ port_no := "1", name := "eth0" },
                          { port_no := "2", name := "obr1_0-3" }])).actions :=
  C9_amended initSt "s1" "10.0.0.1"
    [{ port_no := "1", name := "eth0" }, { port_no := "2", name := "obr1_0-3" }]
    (stOf (handle_switch_enter initSt "s1" "10.0.0.1"
      [{ port_no := "1", name := "eth0" }, { port_no := "2", name := "obr1_0-3" }]))
    rfl (by decide) (by decide)

/-- The failover replay loop, over any list of outstanding entries:
on success it appends exactly one commit per entry, in order, each holding
that entry's replayed processing transaction with the deletion of the
entry's own log path appended. -/
theorem floop_commits : ∀ (nodes : List String) (s s1 : St),
    failoverLoop s nodes = PRes.ok s1 () →
    ∃ batches, failoverCommits s nodes batches ∧ s1.commits = s.commits ++ batches := by
  intro nodes
  induction nodes with
  | nil =>
    intro s s1 h
    rw [floop_nil] at h
    simp only [PRes.ok.injEq] at h
    obtain ⟨hs, _⟩ := h
    exact ⟨[], rfl, by rw [← hs]; simp⟩
  | cons znode rest ih =>
    intro s s1 h
    rw [floop_cons] at h
    cases hd : dget s.store (ZK_FAILOVER ++ "/" ++ znode) with
    | none =>
      rw [zk_get_none _ _ hd] at h
      simp only [PRes.pbind] at h
      exact PRes.noConfusion h
    | some data =>
      rw [zk_get_some _ _ _ hd] at h
      simp only [PRes.pbind] at h
      cases hparse : str_to_tuple znode with
      | nil =>
        rw [hparse] at h
        exact PRes.noConfusion (show PRes.err PyErr.valueError s = PRes.ok s1 () from h)
      | cons a t1 =>
        cases t1 with
        | nil =>
          rw [hparse] at h
          exact PRes.noConfusion (show PRes.err PyErr.valueError s = PRes.ok s1 () from h)
        | cons b t2 =>
          cases t2 with
          | cons c3 t3 =>
            rw [hparse] at h
            exact PRes.noConfusion (show PRes.err PyErr.valueError s = PRes.ok s1 () from h)
          | nil =>
            rw [hparse] at h
            have h2 : ((_process_packet_in s a b data []).pbind fun s txn =>
                PRes.ok (addCommit s
                  (txn ++ [TxnOp.delete (ZK_FAILOVER ++ "/" ++ znode)])) ()).pbind
                (fun s _ => failoverLoop s rest) = PRes.ok s1 () := h
            cases hp : _process_packet_in s a b data [] with
            | err e s4 =>
              rw [hp] at h2
              simp only [PRes.pbind] at h2
              exact PRes.noConfusion h2
            | ok s4 t4 =>
              rw [hp] at h2
              simp only [PRes.pbind] at h2
              obtain ⟨batches0, hfc, hcm⟩ := ih _ _ h2
              refine ⟨(t4 ++ [TxnOp.delete (ZK_FAILOVER ++ "/" ++ znode)]) :: batches0, ?_, ?_⟩
              · exact ⟨data, a, b, s4, t4, batches0, hd, hparse, hp, rfl, hfc⟩
              · rw [hcm]
                show s4.commits ++ [t4 ++ [TxnOp.delete (ZK_FAILOVER ++ "/" ++ znode)]]
                    ++ batches0 = _
                rw [process_commits _ _ _ _ _ _ _ hp]
                simp

/-- Claim C2: each state-changing packet event — live packet-in processing
and failover replay alike — submits its directory writes, flow-record
writes and the failover-log deletion for (switchId, inPort) in one single
durable-store transaction batch, committed exactly once.  The replay
conjunct covers a failover log with any number of outstanding entries:
each produces exactly one commit pairing its replayed writes with its own
log deletion. -/
theorem C2_single_transaction :
    (∀ (s : St) (dpid in_port : String) (data : ZVal) (s1 : St),
        packet_in_handler s dpid in_port data = PRes.ok s1 () →
        ∃ s0 ptxn,
          _process_packet_in s dpid in_port data [] = PRes.ok s0 ptxn
          ∧ s1.commits = s.commits
              ++ [ptxn ++ [TxnOp.delete (ZK_FAILOVER ++ "/" ++ tuple_to_str [dpid, in_port])]])
    ∧ (∀ (nodes : List String) (s s1 : St),
        zk_children s.store ZK_FAILOVER = nodes →
        _do_failover s = PRes.ok s1 () →
        ∃ batches, failoverCommits s nodes batches ∧ s1.commits = s.commits ++ batches) := by
  constructor
  · intro s dpid in_port data s1 h
    unfold packet_in_handler at h
    cases hp : _process_packet_in s dpid in_port data [] with
    | err e s0 =>
      rw [hp] at h
      simp only [PRes.pbind] at h
      exact PRes.noConfusion h
    | ok s0 t0 =>
      rw [hp] at h
      simp only [PRes.pbind, PRes.ok.injEq] at h
      obtain ⟨hs1, _⟩ := h
      refine ⟨s0, t0, rfl, ?_⟩
      rw [← hs1]
      show s0.commits ++ _ = _
      rw [process_commits _ _ _ _ _ _ _ hp]
  · intro nodes s s1 hch h
    unfold _do_failover at h
    rw [hch] at h
    exact floop_commits nodes s s1 h

/-- Witness for C2: the live learning packet-in of host aa at (s1, p1)
after s1 connected, and a failover replay over a log holding two
outstanding entries. -/
theorem C2_witness :
    (∃ s0 ptxn,
      _process_packet_in (stOf dupConnectPre) "s1" "p1" (pktOf "aa") [] = PRes.ok s0 ptxn
      ∧ (stOf (packet_in_handler (stOf dupConnectPre) "s1" "p1" (pktOf "aa"))).commits =
          (stOf dupConnectPre).commits
          ++ [ptxn ++ [TxnOp.delete (ZK_FAILOVER ++ "/" ++ tuple_to_str ["s1", "p1"])]])
    ∧ (∃ batches,
        failoverCommits failoverPre ["s1,p1", "s1,p2"] batches
        ∧ (stOf (_do_failover failoverPre)).commits = failoverPre.commits ++ batches) :=
  ⟨C2_single_transaction.1 (stOf dupConnectPre) "s1" "p1" (pktOf "aa")
     (stOf (packet_in_handler (stOf dupConnectPre) "s1" "p1" (pktOf "aa"))) (by decide),
   C2_single_transaction.2 ["s1,p1", "s1,p2"] failoverPre
     (stOf (_do_failover failoverPre)) (by decide) (by decide)⟩

end Inception
